import Mathlib

/-!
Verification development for the Business-Report microservice.

The TypeScript sources are embedded shallowly:
- machine numbers are modelled as exact rationals; where the code can divide
  by zero (IEEE semantics), the result type JSNum records NaN and infinities;
- class methods that mutate an entity become functions returning the updated
  copy, and the persistence layer becomes an explicit list of stored reports;
- calls to Date.now() become an explicit parameter.
-/

set_option maxHeartbeats 1600000

/-- Value of a JavaScript floating-point expression: either a finite value
(modelled exactly as a rational), an infinity, or NaN. -/
inductive JSNum where
  | fin (q : ℚ)
  | posInf
  | negInf
  | nan
  deriving DecidableEq, Inhabited

/-- Division of two finite JavaScript numbers: x / 0 is NaN when x = 0 and a
signed infinity otherwise; any other division is exact. -/
def jsDiv (x y : ℚ) : JSNum :=
  if y = 0 then
    if x = 0 then JSNum.nan else if 0 < x then JSNum.posInf else JSNum.negInf
  else JSNum.fin (x / y)

/-- Addition with JavaScript NaN and infinity propagation. -/
def jsAdd : JSNum → JSNum → JSNum
  | JSNum.nan, _ => JSNum.nan
  | _, JSNum.nan => JSNum.nan
  | JSNum.posInf, JSNum.negInf => JSNum.nan
  | JSNum.negInf, JSNum.posInf => JSNum.nan
  | JSNum.posInf, _ => JSNum.posInf
  | _, JSNum.posInf => JSNum.posInf
  | JSNum.negInf, _ => JSNum.negInf
  | _, JSNum.negInf => JSNum.negInf
  | JSNum.fin a, JSNum.fin b => JSNum.fin (a + b)

/-- Multiplication with JavaScript NaN and infinity propagation
(infinity times zero is NaN). -/
def jsMul : JSNum → JSNum → JSNum
  | JSNum.nan, _ => JSNum.nan
  | _, JSNum.nan => JSNum.nan
  | JSNum.fin a, JSNum.fin b => JSNum.fin (a * b)
  | JSNum.posInf, JSNum.posInf => JSNum.posInf
  | JSNum.posInf, JSNum.negInf => JSNum.negInf
  | JSNum.negInf, JSNum.posInf => JSNum.negInf
  | JSNum.negInf, JSNum.negInf => JSNum.posInf
  | JSNum.posInf, JSNum.fin b =>
      if b = 0 then JSNum.nan else if 0 < b then JSNum.posInf else JSNum.negInf
  | JSNum.fin a, JSNum.posInf =>
      if a = 0 then JSNum.nan else if 0 < a then JSNum.posInf else JSNum.negInf
  | JSNum.negInf, JSNum.fin b =>
      if b = 0 then JSNum.nan else if 0 < b then JSNum.negInf else JSNum.posInf
  | JSNum.fin a, JSNum.negInf =>
      if a = 0 then JSNum.nan else if 0 < a then JSNum.negInf else JSNum.posInf

/-- Math.abs with NaN propagation (both infinities map to positive infinity). -/
def jsAbs : JSNum → JSNum
  | JSNum.fin a => JSNum.fin |a|
  | JSNum.nan => JSNum.nan
  | _ => JSNum.posInf

/-- Strict greater-than comparison: any comparison involving NaN is false. -/
def jsGt : JSNum → JSNum → Bool
  | JSNum.nan, _ => false
  | _, JSNum.nan => false
  | JSNum.posInf, JSNum.posInf => false
  | JSNum.posInf, _ => true
  | JSNum.negInf, _ => false
  | JSNum.fin _, JSNum.posInf => false
  | JSNum.fin _, JSNum.negInf => true
  | JSNum.fin a, JSNum.fin b => decide (b < a)

/-! Report entity (src/domain/entities/Report.ts). -/

/-- ReportFormat enum. -/
inductive ReportFormat where
  | PDF
  | EXCEL
  | CSV
  | HTML
  | JSON
  deriving DecidableEq

/-- ReportStatus enum. -/
inductive ReportStatus where
  | PENDING
  | PROCESSING
  | ANALYZING
  | COMPLETED
  | FAILED
  deriving DecidableEq

/-- ReportType enum. -/
inductive ReportType where
  | SALES
  | INVENTORY
  | FINANCIAL
  | USERS
  | LOGS
  | ANALYTICS
  | PREDICTIVE
  | CUSTOM
  deriving DecidableEq

/-- AIInsight interface. The opaque data payload of the source is not
modelled; no claim refers to it. The type field holds one of the literals
anomaly, trend, suggestion, forecast, correlation. Timestamps are
milliseconds as natural numbers. -/
structure AIInsight where
  type : String
  title : String
  description : String
  confidence : ℚ
  actionable : Bool
  timestamp : Nat
  deriving DecidableEq

/-- KPISuggestion interface. -/
structure KPISuggestion where
  name : String
  description : String
  formula : String
  importance : String
  category : String
  visualizationType : String
  currentValue : Option ℚ := none
  targetValue : Option ℚ := none
  deriving DecidableEq

/-- DataQualityMetrics interface. -/
structure DataQualityMetrics where
  completeness : ℚ
  accuracy : ℚ
  consistency : ℚ
  outliers : Nat
  missingValues : Nat
  duplicates : Nat
  deriving DecidableEq

/-- ReportMetadata interface. The presentation-only fields author, company,
logo, filters and chartConfig are not modelled; no lifecycle operation or
claim touches them. -/
structure ReportMetadata where
  title : String
  description : Option String := none
  columns : Option (List String) := none
  dataSource : Option String := none
  recordCount : Option Nat := none
  aiInsights : Option (List AIInsight) := none
  suggestedKPIs : Option (List KPISuggestion) := none
  dataQuality : Option DataQualityMetrics := none
  deriving DecidableEq

/-- Report entity. Optional fields of the constructor are Option values;
dates are milliseconds since the epoch. -/
structure Report where
  id : String
  userId : String
  type : ReportType
  format : ReportFormat
  metadata : ReportMetadata
  status : ReportStatus := ReportStatus.PENDING
  filePath : Option String := none
  fileSize : Option ℚ := none
  downloadUrl : Option String := none
  error : Option String := none
  createdAt : Nat := 0
  completedAt : Option Nat := none
  expiresAt : Option Nat := none
  emailTo : Option String := none
  downloadCount : Nat := 0
  aiAnalysisEnabled : Bool := true
  processingTime : Option Int := none
  deriving DecidableEq

/-- Report.markAsProcessing: unconditionally sets status to PROCESSING. -/
def Report.markAsProcessing (r : Report) : Report :=
  { r with status := ReportStatus.PROCESSING }

/-- Report.markAsAnalyzing: unconditionally sets status to ANALYZING. -/
def Report.markAsAnalyzing (r : Report) : Report :=
  { r with status := ReportStatus.ANALYZING }

/-- Retention window added to the completion time: 7 days in milliseconds. -/
def retentionMs : Nat := 7 * 24 * 60 * 60 * 1000

/-- Report.markAsCompleted: unconditionally sets status to COMPLETED, stores
the artifact fields, and sets completedAt, processingTime and expiresAt from
the current time (parameter now stands for the two Date constructions). -/
def Report.markAsCompleted (r : Report) (filePath : String) (fileSize : ℚ)
    (downloadUrl : String) (now : Nat) : Report :=
  { r with
    status := ReportStatus.COMPLETED
    filePath := some filePath
    fileSize := some fileSize
    downloadUrl := some downloadUrl
    completedAt := some now
    processingTime := some ((now : Int) - (r.createdAt : Int))
    expiresAt := some (now + retentionMs) }

/-- Report.markAsFailed: unconditionally sets status to FAILED, stores the
error message and sets completedAt. -/
def Report.markAsFailed (r : Report) (error : String) (now : Nat) : Report :=
  { r with
    status := ReportStatus.FAILED
    error := some error
    completedAt := some now }

/-- Report.addAIInsight: appends one insight, creating the list if absent. -/
def Report.addAIInsight (r : Report) (insight : AIInsight) : Report :=
  { r with metadata :=
    { r.metadata with
      aiInsights := some ((r.metadata.aiInsights.getD []) ++ [insight]) } }

/-- Report.addKPISuggestions: replaces the suggested KPI list. -/
def Report.addKPISuggestions (r : Report) (kpis : List KPISuggestion) : Report :=
  { r with metadata := { r.metadata with suggestedKPIs := some kpis } }

/-- Report.setDataQuality: replaces the data-quality snapshot. -/
def Report.setDataQuality (r : Report) (quality : DataQualityMetrics) : Report :=
  { r with metadata := { r.metadata with dataQuality := some quality } }

/-- Report.incrementDownloadCount. -/
def Report.incrementDownloadCount (r : Report) : Report :=
  { r with downloadCount := r.downloadCount + 1 }

/-- Terminal statuses are COMPLETED and FAILED. -/
def ReportStatus.isTerminal : ReportStatus → Bool
  | ReportStatus.COMPLETED => true
  | ReportStatus.FAILED => true
  | _ => false

/-- One invocation of a lifecycle operation of the Report entity, with its
arguments (the two mark operations that read the clock carry the time). -/
inductive ReportOp where
  | markAsProcessing
  | markAsAnalyzing
  | markAsCompleted (filePath : String) (fileSize : ℚ) (downloadUrl : String) (now : Nat)
  | markAsFailed (error : String) (now : Nat)
  | addAIInsight (insight : AIInsight)
  | addKPISuggestions (kpis : List KPISuggestion)
  | setDataQuality (quality : DataQualityMetrics)
  deriving DecidableEq

/-- Status-changing operations among the lifecycle operations. -/
def ReportOp.isTransition : ReportOp → Bool
  | ReportOp.markAsProcessing => true
  | ReportOp.markAsAnalyzing => true
  | ReportOp.markAsCompleted _ _ _ _ => true
  | ReportOp.markAsFailed _ _ => true
  | _ => false

/-- Applies one lifecycle operation. -/
def Report.applyOp (r : Report) : ReportOp → Report
  | ReportOp.markAsProcessing => r.markAsProcessing
  | ReportOp.markAsAnalyzing => r.markAsAnalyzing
  | ReportOp.markAsCompleted fp fs du now => r.markAsCompleted fp fs du now
  | ReportOp.markAsFailed e now => r.markAsFailed e now
  | ReportOp.addAIInsight i => r.addAIInsight i
  | ReportOp.addKPISuggestions ks => r.addKPISuggestions ks
  | ReportOp.setDataQuality q => r.setDataQuality q

/-- Applies a sequence of lifecycle operations from left to right. -/
def Report.applyOps (r : Report) (ops : List ReportOp) : Report :=
  ops.foldl Report.applyOp r

/-- Holds when no status transition in the sequence is invoked while the
report is already in a terminal state. -/
def Report.okOps (r : Report) : List ReportOp → Bool
  | [] => true
  | op :: rest =>
      (!op.isTransition || !r.status.isTerminal) && (r.applyOp op).okOps rest

/-- Invariant tying the artifact fields and the error field to the status. -/
def Report.artifactErrorInv (r : Report) : Prop :=
  (r.status.isTerminal = false →
    r.filePath = none ∧ r.fileSize = none ∧ r.downloadUrl = none ∧ r.error = none)
  ∧ (r.status = ReportStatus.COMPLETED → r.error = none)
  ∧ (r.status = ReportStatus.FAILED →
      r.filePath = none ∧ r.fileSize = none ∧ r.downloadUrl = none)

/-- Concrete freshly created report used in counterexamples (the PENDING
state produced by the submission path, with no artifact and no error). -/
def sampleReport : Report :=
  { id := "r-1"
    userId := "u-1"
    type := ReportType.SALES
    format := ReportFormat.PDF
    metadata := { title := "Ventas" }
    createdAt := 500 }

/-! Statistics kernel (simple-statistics library functions used by the
analysis services), over exact rationals. -/

/-- Arithmetic mean (simple-statistics mean): sum divided by length. Every
caller in scope passes a non-empty list; on the empty list this model yields
0 while the library throws, which no theorem relies on. -/
def meanQ (l : List ℚ) : ℚ := l.sum / l.length

/-- Population variance (simple-statistics variance): mean of the squared
deviations. The library standardDeviation is its square root, which is
irrational in general; the embeddings below either carry squared scores or
take the standard deviation as a constrained parameter. -/
def varianceQ (l : List ℚ) : ℚ :=
  (l.map (fun x => (x - meanQ l) ^ 2)).sum / l.length

/-- Inserts a value into an ascending sorted list. -/
def insertSorted (x : ℚ) : List ℚ → List ℚ
  | [] => [x]
  | y :: ys => if x ≤ y then x :: y :: ys else y :: insertSorted x ys

/-- Ascending numeric sort, the result of the JavaScript sort((a, b) => a - b)
idiom. The ascending rearrangement of a list of numbers is unique as a value
list, so an insertion sort reproduces the library result exactly. -/
def jsSortAsc (l : List ℚ) : List ℚ := l.foldr insertSorted []

/-- Quantile of an ascending sorted list (simple-statistics quantileSorted):
the extremes at p = 0 and p = 1, the order statistic at the rounded-up rank
when length * p is not an integer, and otherwise the midpoint of the two
adjacent order statistics for even lengths or the exact order statistic for
odd lengths. The out-of-range default of getD is never reached for non-empty
input and p between 0 and 1. -/
def quantileSorted (x : List ℚ) (p : ℚ) : ℚ :=
  let idx : ℚ := (x.length : ℚ) * p
  if p = 1 then x.getD (x.length - 1) 0
  else if p = 0 then x.getD 0 0
  else if idx.den ≠ 1 then x.getD (⌈idx⌉.toNat - 1) 0
  else if x.length % 2 = 0 then
    (x.getD (idx.num.toNat - 1) 0 + x.getD idx.num.toNat 0) / 2
  else x.getD idx.num.toNat 0

/-- Quantile of an arbitrary list (simple-statistics quantile): sort, then
read the sorted quantile. -/
def quantileQ (l : List ℚ) (p : ℚ) : ℚ := quantileSorted (jsSortAsc l) p

/-- Map with the element index, starting at a given offset. -/
def mapWithIndex (f : Nat → ℚ → α) : Nat → List ℚ → List α
  | _, [] => []
  | i, x :: xs => f i x :: mapWithIndex f (i + 1) xs

/-- First index of a value in a list, 0 when absent (Array.prototype.indexOf
is only applied to present values in the sources). -/
def jsIndexOf (v : ℚ) : List ℚ → Nat
  | [] => 0
  | x :: xs => if x = v then 0 else jsIndexOf v xs + 1

/-! AnomalyDetectionService (src/unnamed/part_004). -/

/-- Per-point result of the z-score detector. The source stores the score
zScore = |value − mean| / stdDev; stdDev is an irrational square root, so the
embedding stores the square scoreSq = (value − mean)^2 / variance, which
determines the score uniquely (the score is its nonnegative square root, and
NaN stays NaN). -/
structure ZScorePoint where
  index : Nat
  value : ℚ
  scoreSq : JSNum
  isAnomaly : Bool
  deriving DecidableEq, Inhabited

/-- Comparison zScore > threshold expressed on the squared score: NaN
compares false; a nonnegative finite score exceeds a negative threshold
always and otherwise exactly when its square exceeds the squared threshold.
The positive-infinity case (zero variance with a nonzero deviation) cannot
arise but is mapped as IEEE would. -/
def zScoreExceeds (scoreSq : JSNum) (threshold : ℚ) : Bool :=
  match scoreSq with
  | JSNum.nan => false
  | JSNum.posInf => true
  | JSNum.negInf => false
  | JSNum.fin s => if threshold < 0 then true else decide (threshold ^ 2 < s)

/-- Result of one anomaly-detection method run. -/
structure AnomalyRun (point : Type) where
  anomalies : List point
  threshold : ℚ
  method : String
  anomalyCount : Nat
  anomalyPercentage : JSNum
  deriving DecidableEq

/-- Point list built by AnomalyDetectionService.detectWithZScore: z-score of
every point against the global mean and standard deviation, flagged above the
threshold. There is no zero-variance guard in the source: with zero variance
every score is the IEEE quotient 0 / 0 = NaN. -/
def zScoreAnomalies (data : List ℚ) (threshold : ℚ) : List ZScorePoint :=
  mapWithIndex (fun i x =>
    let sSq := jsDiv ((x - meanQ data) ^ 2) (varianceQ data)
    { index := i, value := x, scoreSq := sSq,
      isAnomaly := zScoreExceeds sSq threshold }) 0 data

/-- AnomalyDetectionService.detectWithZScore. -/
def detectWithZScore (data : List ℚ) (threshold : ℚ) : AnomalyRun ZScorePoint :=
  { anomalies := zScoreAnomalies data threshold
    threshold := threshold
    method := "zscore"
    anomalyCount :=
      ((zScoreAnomalies data threshold).filter (fun a => a.isAnomaly)).length
    anomalyPercentage :=
      jsMul (jsDiv
        ((((zScoreAnomalies data threshold).filter (fun a => a.isAnomaly)).length : ℚ))
        (data.length : ℚ)) (JSNum.fin 100) }

/-- Per-point result of the IQR detector; all its arithmetic is rational, so
the score is carried exactly. -/
structure IQRPoint where
  index : Nat
  value : ℚ
  score : JSNum
  isAnomaly : Bool
  deriving DecidableEq, Inhabited

/-- Point list built by AnomalyDetectionService.detectWithIQR: quartile fence
at 1.5 IQR; the score of an in-fence point stays the literal 0 (no division),
and an out-of-fence point is scored by its distance outside the fence divided
by the IQR (an IEEE division when the IQR is 0). -/
def iqrAnomalies (data : List ℚ) : List IQRPoint :=
  let q1 := quantileSorted (jsSortAsc data) (1 / 4)
  let q3 := quantileSorted (jsSortAsc data) (3 / 4)
  let iqr := q3 - q1
  let lowerBound := q1 - 3 / 2 * iqr
  let upperBound := q3 + 3 / 2 * iqr
  mapWithIndex (fun i v =>
    let isLower := decide (v < lowerBound)
    let isUpper := decide (upperBound < v)
    let score : JSNum :=
      if v < lowerBound then jsDiv (lowerBound - v) iqr
      else if upperBound < v then jsDiv (v - upperBound) iqr
      else JSNum.fin 0
    { index := i, value := v, score := jsAbs score,
      isAnomaly := isLower || isUpper }) 0 data

/-- AnomalyDetectionService.detectWithIQR. -/
def detectWithIQR (data : List ℚ) : AnomalyRun IQRPoint :=
  { anomalies := iqrAnomalies data
    threshold := 3 / 2
    method := "iqr"
    anomalyCount := ((iqrAnomalies data).filter (fun a => a.isAnomaly)).length
    anomalyPercentage :=
      jsMul (jsDiv
        ((((iqrAnomalies data).filter (fun a => a.isAnomaly)).length : ℚ))
        (data.length : ℚ)) (JSNum.fin 100) }

/-- Per-point result of the isolation-proxy detector. -/
structure IsolationPoint where
  index : Nat
  value : ℚ
  score : JSNum
  isAnomaly : Bool
  deriving DecidableEq, Inhabited

/-- AnomalyDetectionService.detectWithIsolationForest: combines the z-score
with the mean distance to the sorted neighbours, flagged above the fixed
multiplier 3. The parameter stdDev stands for standardDeviation(data), the
square root of the variance; theorems constrain it by stdDev ≥ 0 and
stdDev * stdDev = variance (for zero-variance claims it is exactly 0). -/
def isolationAnomalies (data : List ℚ) (stdDev : ℚ) : List IsolationPoint :=
  let sorted := jsSortAsc data
  let avg := meanQ data
  mapWithIndex (fun i v =>
    let zScore := jsAbs (jsDiv (v - avg) stdDev)
    let sortedIndex := jsIndexOf v sorted
    let leftNeighbor :=
      if 0 < sortedIndex then sorted.getD (sortedIndex - 1) v else v
    let rightNeighbor :=
      if sortedIndex < sorted.length - 1 then sorted.getD (sortedIndex + 1) v else v
    let leftDist := |v - leftNeighbor|
    let rightDist := |v - rightNeighbor|
    let avgNeighborDist := (leftDist + rightDist) / 2
    let isolationScore :=
      jsMul zScore (jsAdd (JSNum.fin 1) (jsDiv avgNeighborDist stdDev))
    { index := i, value := v, score := isolationScore,
      isAnomaly := jsGt isolationScore (JSNum.fin 3) }) 0 data

/-- AnomalyDetectionService.detectWithIsolationForest. -/
def detectWithIsolationForest (data : List ℚ) (stdDev : ℚ) :
    AnomalyRun IsolationPoint :=
  { anomalies := isolationAnomalies data stdDev
    threshold := 3
    method := "isolation_forest"
    anomalyCount :=
      ((isolationAnomalies data stdDev).filter (fun a => a.isAnomaly)).length
    anomalyPercentage :=
      jsMul (jsDiv
        ((((isolationAnomalies data stdDev).filter (fun a => a.isAnomaly)).length : ℚ))
        (data.length : ℚ)) (JSNum.fin 100) }

/-- Series of end-to-end scenario B of the specification. -/
def seriesB : List ℚ := [100, 120, 115, 300, 125, 130]

/-! ForecastingService (src/infrastructure/ml/ForecastingService.ts) and
ForecastTrendsUseCase (src/application/use-cases/ForecastTrends.ts). -/

/-- Successive changes data[i] − data[i − 1]. -/
def diffsQ (data : List ℚ) : List ℚ :=
  (data.zip data.tail).map (fun p => p.2 - p.1)

/-- simple-statistics linearRegression over the points (index, value): least
squares slope and intercept as a pair, with the library special case for a
single point. The zero-point case would divide 0 by 0; every caller in the
sources guards the length first, so it is never reached. -/
def linearRegressionQ (data : List ℚ) : ℚ × ℚ :=
  match data with
  | [y] => (0, y)
  | _ =>
      let n : ℚ := (data.length : ℚ)
      let pts := mapWithIndex (fun i y => ((i : ℚ), y)) 0 data
      let sumX := (pts.map (fun p => p.1)).sum
      let sumY := (pts.map (fun p => p.2)).sum
      let sumXY := (pts.map (fun p => p.1 * p.2)).sum
      let sumXX := (pts.map (fun p => p.1 * p.1)).sum
      let m := (n * sumXY - sumX * sumY) / (n * sumXX - sumX * sumX)
      (m, sumY / n - m * sumX / n)

/-- ForecastResult (src/application/use-cases/ForecastTrends.ts). The
confidence and mape fields of the source are not recorded: in the
moving-average branch both depend on the standard deviation of the changes, a
square root that has no exact rational value, and no claim reads them. -/
structure ForecastResult where
  forecasts : List ℚ
  method : String
  trend : String
  deriving DecidableEq

/-- ForecastingService.simpleLinearForecast: regression line extended one to
periods steps past the last index, each value floored at 0; trend is stable
when |slope| < 0.01 · mean. The rSquared value of the source is computed but
never used in the result and is omitted, as are MAPE and the confidence
derived from it (not recorded in ForecastResult). -/
def simpleLinearForecast (data : List ℚ) (periods : Nat) : ForecastResult :=
  let mb := linearRegressionQ data
  let m := mb.1
  let b := mb.2
  let lastIndex : ℚ := (data.length : ℚ) - 1
  let forecasts := (List.range periods).map
    (fun i => max 0 (m * (lastIndex + ((i : ℚ) + 1)) + b))
  let trend :=
    if |m| < 1 / 100 * meanQ data then "stable"
    else if 0 < m then "upward" else "downward"
  { forecasts := forecasts, method := "linear_regression", trend := trend }

/-- Forecast loop of the moving-average branch: each emitted value is floored
at zero while the running last value stays unclamped, exactly as in the
source (lastValue is updated with the unfloored forecast). -/
def wmaIterate (avgChange lastValue : ℚ) : Nat → List ℚ
  | 0 => []
  | Nat.succ k =>
      max 0 (lastValue + avgChange)
        :: wmaIterate avgChange (lastValue + avgChange) k

/-- ForecastingService.weightedMovingAverageForecast: projects last value
plus average change. The trend test |avgChange| < stdChange · 0.5 is carried
in the equivalent squared form avgChange^2 < variance / 4 (both sides of the
original comparison are nonnegative, so squaring is exact). The weighted
average the source computes is dead code (unused by the result) and the
sqrt-dependent confidence and mape are not recorded. -/
def weightedMovingAverageForecast (data : List ℚ) (periods : Nat) :
    ForecastResult :=
  let changes := diffsQ data
  let avgChange := meanQ changes
  let forecasts := wmaIterate avgChange (data.getD (data.length - 1) 0) periods
  let trend :=
    if avgChange ^ 2 < varianceQ changes / 4 then "stable"
    else if 0 < avgChange then "upward" else "downward"
  { forecasts := forecasts, method := "weighted_moving_average", trend := trend }

/-- ForecastingService.forecast: linear regression below 10 points, weighted
moving average otherwise. The confidence argument of the source does not
influence the computation. -/
def forecastQ (data : List ℚ) (periods : Nat) : ForecastResult :=
  if data.length < 10 then simpleLinearForecast data periods
  else weightedMovingAverageForecast data periods

/-- ForecastDTO: the request of the forecast use case. -/
structure ForecastDTO where
  data : List ℚ
  periods : Int
  confidence : Option ℚ := none
  deriving DecidableEq

/-- ForecastTrendsUseCase.execute: rejects fewer than 3 points, then a
period count outside 1..24, then runs the forecaster. The numeric-validity
check of the source always passes in this model (values are exact rationals,
never NaN). -/
def forecastTrendsExecute (dto : ForecastDTO) : Except String ForecastResult :=
  if dto.data.length < 3 then
    Except.error "Se requieren al menos 3 puntos de datos para realizar pronósticos"
  else if dto.periods ≤ 0 ∨ 24 < dto.periods then
    Except.error "El número de períodos debe estar entre 1 y 24"
  else
    Except.ok (forecastQ dto.data dto.periods.toNat)

/-! Record sets: JavaScript objects with ordered keys, as consumed by the
DataQualityAnalyzer and the ML worker. -/

/-- JavaScript cell value of an analysed record: a number (exact rational,
never NaN in this model), a string, a boolean, null, or undefined (reading an
absent key yields undefined). Date objects and nested objects do not occur in
the analysed record sets and are not modelled. -/
inductive JSValue where
  | num (q : ℚ)
  | str (s : String)
  | boolean (b : Bool)
  | null
  | undef
  deriving DecidableEq

/-- Record row: association list in object key order (JavaScript objects
preserve insertion order, which Object.keys and for-in follow). -/
abbrev Row := List (String × JSValue)

/-- Property read row[field]: first binding of the key, undefined if absent. -/
def rowGet (row : Row) (field : String) : JSValue :=
  match row with
  | [] => JSValue.undef
  | p :: rest => if p.1 = field then p.2 else rowGet rest field

/-- Object.keys of the first record (empty for an empty record set). -/
def firstRowKeys (data : List Row) : List String :=
  (data.headD []).map (fun p => p.1)

/-- Lowercased field-name containment: model of the JavaScript
String.prototype.includes applied after toLowerCase. -/
def strIncludes (hay sub : String) : Bool :=
  decide (sub.toList <:+: hay.toList)

/-- Character class [^\s@] of the email pattern (Char.isWhitespace stands
for the \s class; the claims never evaluate email validity). -/
def emailChar (c : Char) : Bool := !(c = '@' || c.isWhitespace)

/-- Model of the email regular expression of the sources,
anchored [^\s@]+ at-sign [^\s@]+ dot [^\s@]+ : exactly one at-sign with a
non-empty whitespace-free left part, and a right part containing a dot that
has at least one character on each side. -/
def emailLike (s : String) : Bool :=
  match s.splitOn "@" with
  | [l, r] =>
      !(l = "") && l.toList.all (fun c => !c.isWhitespace)
      && !(r = "") && r.toList.all (fun c => !c.isWhitespace)
      && ((r.toList.drop 1).dropLast.contains '.')
  | _ => false

/-- Prefix test of the date-string pattern: four digits, dash, two digits,
dash, two digits. -/
def isoDatePrefix (s : String) : Bool :=
  match s.toList with
  | a :: b :: c :: d :: '-' :: e :: f :: '-' :: g :: h :: _ =>
      a.isDigit && b.isDigit && c.isDigit && d.isDigit
        && e.isDigit && f.isDigit && g.isDigit && h.isDigit
  | _ => false

/-- Model of the check !Number.isNaN(new Date(value).getTime()): numbers and
booleans coerce to timestamps, undefined gives NaN, and a string parses when
it carries the ISO date prefix (the engine accepts further formats, but no
claim evaluates date parsing; the numeric-range cutoff of the Date type is
likewise ignored). -/
def jsDateValid : JSValue → Bool
  | JSValue.num _ => true
  | JSValue.boolean _ => true
  | JSValue.null => true
  | JSValue.undef => false
  | JSValue.str s => isoDatePrefix s

/-! DataQualityAnalyzer (src/unnamed/part_003). -/

/-- Cell test of calculateCompleteness: not null, not undefined, not the
empty string. -/
def isFilled : JSValue → Bool
  | JSValue.null => false
  | JSValue.undef => false
  | JSValue.str s => !(s = "")
  | _ => true

/-- DataQualityAnalyzer.calculateCompleteness: share of filled cells times
100. An empty field list would give the IEEE quotient 0 / 0 in the source;
this model yields 0 there and no theorem relies on that case. -/
def calculateCompleteness (data : List Row) (fields : List String) : ℚ :=
  let totalCells : ℚ := (data.length : ℚ) * (fields.length : ℚ)
  let filledCells : ℚ :=
    ((data.map (fun row =>
      (fields.filter (fun f => isFilled (rowGet row f))).length)).sum : ℚ)
  filledCells / totalCells * 100

/-- DataQualityAnalyzer.isValidValue: empty cells are invalid; fields whose
lowercased name mentions email or mail need a matching email string; date,
fecha or timestamp need a parseable date; amount, price, quantity or count
need a (finite) number; anything else is valid when non-empty. -/
def isValidValue (value : JSValue) (field : String) : Bool :=
  if value = JSValue.null ∨ value = JSValue.undef ∨ value = JSValue.str "" then
    false
  else
    let lowerField := field.toLower
    if strIncludes lowerField "email" || strIncludes lowerField "mail" then
      match value with
      | JSValue.str s => emailLike s
      | _ => false
    else if strIncludes lowerField "date" || strIncludes lowerField "fecha"
        || strIncludes lowerField "timestamp" then
      jsDateValid value
    else if strIncludes lowerField "amount" || strIncludes lowerField "price"
        || strIncludes lowerField "quantity" || strIncludes lowerField "count" then
      match value with
      | JSValue.num _ => true
      | _ => false
    else true

/-- DataQualityAnalyzer.calculateAccuracy: share of valid cells times 100. -/
def calculateAccuracy (data : List Row) (fields : List String) : ℚ :=
  let totalCells : ℚ := (data.length : ℚ) * (fields.length : ℚ)
  let validCells : ℚ :=
    ((data.map (fun row =>
      (fields.filter (fun f => isValidValue (rowGet row f) f)).length)).sum : ℚ)
  validCells / totalCells * 100

/-- DataQualityAnalyzer.getValueType: coarse type classification. Date
instances do not occur among modelled values, so the date branch of the
source is unreachable here. -/
def getValueType : JSValue → String
  | JSValue.null => "null"
  | JSValue.undef => "null"
  | JSValue.num _ => "number"
  | JSValue.boolean _ => "boolean"
  | JSValue.str s =>
      if isoDatePrefix s then "date_string"
      else if emailLike s then "email"
      else "string"

/-- Count of the most frequent coarse type of a field (the Math.max over the
per-type counters; at least one type occurs for every row, and the analyzer
only runs on non-empty data, so the empty-map case of Math.max never
arises). -/
def dominantTypeCount (data : List Row) (field : String) : Nat :=
  let types := data.map (fun row => getValueType (rowGet row field))
  (types.map (fun t => (types.filter (fun u => u = t)).length)).foldr Nat.max 0

/-- DataQualityAnalyzer.calculateConsistency: average over the fields of the
dominant-type share times 100. -/
def calculateConsistency (data : List Row) (fields : List String) : ℚ :=
  ((fields.map (fun f =>
    ((dominantTypeCount data f : ℚ) / (data.length : ℚ)) * 100)).sum)
    / (fields.length : ℚ)

/-- Numeric values of a field (typeof number and not NaN; modelled numbers
are never NaN). -/
def numericValuesOf (data : List Row) (field : String) : List ℚ :=
  data.filterMap (fun row =>
    match rowGet row field with
    | JSValue.num q => some q
    | _ => none)

/-- DataQualityAnalyzer.countOutliers: per field with more than 10 numeric
samples, the count of values outside the 1.5 IQR fence, summed. -/
def countOutliers (data : List Row) (fields : List String) : Nat :=
  (fields.map (fun f =>
    let numericValues := numericValuesOf data f
    if 10 < numericValues.length then
      let q1 := quantileQ numericValues (1 / 4)
      let q3 := quantileQ numericValues (3 / 4)
      let iqr := q3 - q1
      let lowerBound := q1 - 3 / 2 * iqr
      let upperBound := q3 + 3 / 2 * iqr
      (numericValues.filter (fun v =>
        decide (v < lowerBound) || decide (upperBound < v))).length
    else 0)).sum

/-- DataQualityAnalyzer.countMissingValues: count of null, undefined or
empty-string cells. -/
def countMissingValues (data : List Row) (fields : List String) : Nat :=
  (data.map (fun row =>
    (fields.filter (fun f =>
      let v := rowGet row f
      decide (v = JSValue.null) || decide (v = JSValue.undef)
        || decide (v = JSValue.str ""))).length)).sum

/-- JSON.stringify key of a row: undefined-valued entries are dropped by the
serializer; the remaining ordered binding list determines the string. -/
def stringifyKey (row : Row) : Row :=
  row.filter (fun p => !(p.2 = JSValue.undef))

/-- Walk of DataQualityAnalyzer.countDuplicates: rows whose serialized form
was already seen count as duplicates. -/
def countDuplicatesGo (seen : List Row) : List Row → Nat
  | [] => 0
  | r :: rest =>
      let k := stringifyKey r
      if k ∈ seen then 1 + countDuplicatesGo seen rest
      else countDuplicatesGo (k :: seen) rest

/-- DataQualityAnalyzer.countDuplicates. -/
def countDuplicates (data : List Row) : Nat := countDuplicatesGo [] data

/-- DataQualityAnalyzer.getEmptyMetrics. -/
def getEmptyMetrics : DataQualityMetrics :=
  { completeness := 0, accuracy := 0, consistency := 0,
    outliers := 0, missingValues := 0, duplicates := 0 }

/-- Field list used by the analyzer: the requiredFields argument when passed
(an empty array is honoured, arrays are truthy), the keys of the first record
otherwise. -/
def effectiveFields (data : List Row) (requiredFields : Option (List String)) :
    List String :=
  requiredFields.getD (firstRowKeys data)

/-- DataQualityAnalyzer.analyze: all-zero metrics for the empty record set,
the six computed metrics otherwise. -/
def dataQualityAnalyze (data : List Row)
    (requiredFields : Option (List String) := none) : DataQualityMetrics :=
  if data.length = 0 then getEmptyMetrics
  else
    let fields := effectiveFields data requiredFields
    { completeness := calculateCompleteness data fields
      accuracy := calculateAccuracy data fields
      consistency := calculateConsistency data fields
      outliers := countOutliers data fields
      missingValues := countMissingValues data fields
      duplicates := countDuplicates data }

/-- Filled-cell count as worded by the specification: cells that are not
null, not undefined and not the empty string, counted over every row and
field. Stated independently of the analyzer to compare against it. -/
def claimFilledCells (data : List Row) (fields : List String) : Nat :=
  (data.map (fun row => fields.countP (fun f =>
    decide (rowGet row f ≠ JSValue.null ∧ rowGet row f ≠ JSValue.undef
      ∧ rowGet row f ≠ JSValue.str "")))).sum

/-- Record set of the concrete completeness example: one fully-null row and
one fully-filled row over the two fields a and b. -/
def halfFilledRows : List Row :=
  [[("a", JSValue.null), ("b", JSValue.null)],
   [("a", JSValue.num 1), ("b", JSValue.str "x")]]

/-! Correlation discovery of the ML worker (src/unnamed/part_001). -/

/-- MLAnalysisWorker.extractNumericFields: keys of the first record whose
values are numbers (and not NaN) in more than half of the records. The
JavaScript test typeof number admits Infinity; modelled numbers are always
finite, so the distinction does not arise. -/
def extractNumericFields (data : List Row) : List String :=
  if data.length = 0 then []
  else
    (firstRowKeys data).filter (fun key =>
      let numericCount := ((data.map (fun d => rowGet d key)).filter (fun v =>
        match v with
        | JSValue.num _ => true
        | _ => false)).length
      decide ((data.length : ℚ) * (1 / 2) < (numericCount : ℚ)))

/-- Value of MLAnalysisWorker.calculateCorrelation, which the source returns
as numerator / sqrt(denomX · denomY). The square root is irrational, so the
value is carried as the exact pair (numerator, denomX · denomY); every use
compares |r| against a constant, which the squared form decides exactly. A
zero product forces a zero numerator, matching the IEEE NaN of the source
(0 / 0), which compares false everywhere. -/
structure CorrValue where
  num : ℚ
  denSq : ℚ
  deriving DecidableEq, Inhabited

/-- MLAnalysisWorker.calculateCorrelation: Pearson-style sums over the first
n = min(|x|, |y|) paired samples, with the quirk of the source that both
means divide the full sums of x and y by n. -/
def calculateCorrelation (x y : List ℚ) : CorrValue :=
  let n := min x.length y.length
  let meanX := x.sum / (n : ℚ)
  let meanY := y.sum / (n : ℚ)
  let pairs := x.zip y
  let numerator := (pairs.map (fun p => (p.1 - meanX) * (p.2 - meanY))).sum
  let denomX := (pairs.map (fun p => (p.1 - meanX) * (p.1 - meanX))).sum
  let denomY := (pairs.map (fun p => (p.2 - meanY) * (p.2 - meanY))).sum
  { num := numerator, denSq := denomX * denomY }

/-- Comparison |r| > t for a nonnegative constant t on the squared
representation: true exactly when the denominator product is positive and
numerator squared exceeds t squared times it (NaN, the zero-denominator case,
compares false, as in IEEE). -/
def corrAbsGt (c : CorrValue) (t : ℚ) : Bool :=
  decide (0 < c.denSq) && decide (t ^ 2 * c.denSq < c.num ^ 2)

/-- Discovered correlation entry of MLAnalysisWorker.findCorrelations. -/
structure Correlation where
  field1 : String
  field2 : String
  coefficient : CorrValue
  strength : String
  deriving DecidableEq, Inhabited

/-- Ordered pair enumeration of the nested loops (i < j). -/
def fieldPairs : List String → List (String × String)
  | [] => []
  | f :: rest => rest.map (fun g => (f, g)) ++ fieldPairs rest

/-- Retained correlations in enumeration order: both fields need more than 3
numeric samples, the coefficient is kept only above |r| > 0.5 (strict), and
strength is fuerte above 0.8, moderada above 0.6, débil otherwise. -/
def retainedCorrelations (data : List Row) : List Correlation :=
  (fieldPairs (extractNumericFields data)).filterMap (fun p =>
    let values1 := numericValuesOf data p.1
    let values2 := numericValuesOf data p.2
    if 3 < values1.length ∧ 3 < values2.length then
      let coef := calculateCorrelation values1 values2
      if corrAbsGt coef (1 / 2) then
        some { field1 := p.1, field2 := p.2, coefficient := coef,
               strength :=
                 if corrAbsGt coef (4 / 5) then "fuerte"
                 else if corrAbsGt coef (3 / 5) then "moderada"
                 else "débil" }
      else none
    else none)

/-- MLAnalysisWorker.findCorrelations: the first three retained pairs (the
source slices the accumulated array without sorting it). -/
def findCorrelations (data : List Row) : List Correlation :=
  (retainedCorrelations data).take 3

/-- Record set with an exact correlation of one half between its two fields:
means 1 and 4, deviation vectors (-1,-1,-1,1,1,1) and (2,-4,-1,1,1,1), so
numerator 6 and denominator product 6 · 24 = 144 with 6 / sqrt(144) = 0.5. -/
def corrBoundaryRows : List Row :=
  [[("a", JSValue.num 0), ("b", JSValue.num 6)],
   [("a", JSValue.num 0), ("b", JSValue.num 0)],
   [("a", JSValue.num 0), ("b", JSValue.num 3)],
   [("a", JSValue.num 2), ("b", JSValue.num 5)],
   [("a", JSValue.num 2), ("b", JSValue.num 5)],
   [("a", JSValue.num 2), ("b", JSValue.num 5)]]

/-- Record set with three numeric fields where the strongest pair comes last
in enumeration order: r(a,b) = r(a,c) = 0.6 and r(b,c) = 1. -/
def corrOrderRows : List Row :=
  [[("a", JSValue.num 1), ("b", JSValue.num 2), ("c", JSValue.num 2)],
   [("a", JSValue.num 2), ("b", JSValue.num 1), ("c", JSValue.num 1)],
   [("a", JSValue.num 3), ("b", JSValue.num 4), ("c", JSValue.num 4)],
   [("a", JSValue.num 4), ("b", JSValue.num 3), ("c", JSValue.num 3)]]

/-! MLAnalysisWorker.processAnalysis (src/unnamed/part_001): the analysis
orchestrator. The repository is a list of stored reports; update replaces by
id, findById returns the first id match. A fault value injects a thrown
exception at the start of the given analysis step, standing for any failure
inside that step; the KPI call result is a parameter because the service is
an external collaborator whose own failures the source swallows in an inner
try block. -/

/-- Formats a rational with one decimal digit, the model of
Number.prototype.toFixed(1) (ties of the binary double are immaterial: no
claim reads formatted strings). -/
def qToFixed1 (q : ℚ) : String :=
  let n : ℤ := round (q * 10)
  (if n < 0 then "-" else "")
    ++ toString (n.natAbs / 10) ++ "." ++ toString (n.natAbs % 10)

/-- toFixed(1) lifted to IEEE values. -/
def jsNumToFixed1 : JSNum → String
  | JSNum.fin q => qToFixed1 q
  | JSNum.nan => "NaN"
  | JSNum.posInf => "Infinity"
  | JSNum.negInf => "-Infinity"

/-- MLJobData: payload of an analysis job (absent flags read as false). -/
structure MLJobData where
  reportId : String
  data : List Row
  enableAnomalyDetection : Bool := false
  enableForecasting : Bool := false
  enableKPISuggestions : Bool := false
  deriving DecidableEq

/-- Injected failure point: the analysis step that throws. The KPI step is
absent because its failures are caught by the inner try of the source and
never escape. -/
inductive FaultStep where
  | quality
  | anomaly
  | forecasting
  | correlation
  deriving DecidableEq

/-- Whether the injected fault actually fires in the given job: a step only
throws when it runs, and the anomaly and forecasting steps are gated by their
flags. -/
def faultFires (job : MLJobData) : Option FaultStep → Bool
  | none => false
  | some FaultStep.quality => true
  | some FaultStep.anomaly => job.enableAnomalyDetection
  | some FaultStep.forecasting => job.enableForecasting
  | some FaultStep.correlation => true

/-- Repository findById: first stored report with the id. -/
def repoFindById : List Report → String → Option Report
  | [], _ => none
  | r :: rest, id => if r.id = id then some r else repoFindById rest id

/-- Repository update: replaces the stored reports carrying the same id. -/
def repoUpdate (repo : List Report) (r : Report) : List Report :=
  repo.map (fun x => if x.id = r.id then r else x)

/-- Low-data-quality insight of step 1 (emitted below 90 percent
completeness). -/
def qualityInsight (dq : DataQualityMetrics) (now : Nat) : AIInsight :=
  { type := "suggestion"
    title := "Calidad de Datos Baja"
    description := "Solo " ++ qToFixed1 dq.completeness
      ++ "% de los datos están completos. Considera limpiar los datos antes de generar análisis."
    confidence := 19 / 20
    actionable := true
    timestamp := now }

/-- Anomaly insights of step 2: one per numeric field with more than 10
numeric samples in which the z-score detector (threshold 2.5) flags at least
one point. The data payload of the source (the first five flagged points) is
not modelled. -/
def anomalyInsights (data : List Row) (now : Nat) : List AIInsight :=
  (extractNumericFields data).filterMap (fun field =>
    let values := numericValuesOf data field
    if 10 < values.length then
      let result := detectWithZScore values (5 / 2)
      if 0 < result.anomalyCount then
        some { type := "anomaly"
               title := "Anomalías Detectadas en " ++ field
               description := "Se detectaron " ++ toString result.anomalyCount
                 ++ " valores atípicos (" ++ jsNumToFixed1 result.anomalyPercentage
                 ++ "% del total) en el campo " ++ field
               confidence := 17 / 20
               actionable := true
               timestamp := now }
      else none
    else none)

/-- Forecast insights of step 3: one per numeric field with at least 5
numeric samples. The confidence the source stores is the forecast confidence,
sqrt-dependent in the moving-average branch and not modelled (recorded as 0;
no claim reads insight confidences). -/
def forecastInsights (data : List Row) (now : Nat) : List AIInsight :=
  (extractNumericFields data).filterMap (fun field =>
    let values := numericValuesOf data field
    if 5 ≤ values.length then
      let forecast := forecastQ values 3
      some { type := "forecast"
             title := "Pronóstico para " ++ field
             description := "Basado en tendencia "
               ++ (if forecast.trend = "upward" then "creciente"
                   else if forecast.trend = "downward" then "decreciente"
                   else "estable")
               ++ ", se proyectan los siguientes valores"
             confidence := 0
             actionable := true
             timestamp := now }
    else none)

/-- Aggregate KPI insight of step 4. -/
def kpiInsight (kpis : List KPISuggestion) (now : Nat) : AIInsight :=
  { type := "suggestion"
    title := "KPIs Sugeridos"
    description := "Se sugieren " ++ toString kpis.length
      ++ " indicadores clave de performance relevantes para tus datos"
    confidence := 4 / 5
    actionable := true
    timestamp := now }

/-- Correlation insight of step 5. The confidence of the source is |r| and
its description interpolates |r| times 100, both sqrt-dependent; the
embedding records confidence 0 and omits the percentage (no claim reads
them). -/
def corrInsight (c : Correlation) (now : Nat) : AIInsight :=
  { type := "correlation"
    title := "Correlación: " ++ c.field1 ++ " ↔ " ++ c.field2
    description := "Existe una correlación " ++ c.strength ++ " entre "
      ++ c.field1 ++ " y " ++ c.field2
    confidence := 0
    actionable := true
    timestamp := now }

/-- Step 4 of the orchestrator: the external KPI call inside its own try
block. On success with a non-empty list the suggestions are stored on the
report and one aggregate insight is produced; on failure the error is logged
and swallowed, leaving the report and the insight list untouched. -/
def kpiApply (r : Report) (enable : Bool)
    (kpiResult : Except String (List KPISuggestion)) (now : Nat) :
    Report × List AIInsight :=
  if enable then
    match kpiResult with
    | Except.ok kpis =>
        if 0 < kpis.length then (r.addKPISuggestions kpis, [kpiInsight kpis now])
        else (r, [])
    | Except.error _ => (r, [])
  else (r, [])

/-- Outcome of one processAnalysis run: the repository after the final
update, the local insights array at the moment control left the try block
(on a fault this list is abandoned, never applied to the report), whether
the catch handler ran, and whether the report was found at all (otherwise
the handler threw before the try block and updated nothing). -/
structure MLRun where
  repo : List Report
  accumulated : List AIInsight
  failed : Bool
  found : Bool
  deriving DecidableEq

/-- Report as mutated after step 1: markAsAnalyzing (done before the try
block and persisted) followed by setDataQuality with the step-1 metrics. -/
def orchR2 (job : MLJobData) (report : Report) : Report :=
  (report.markAsAnalyzing).setDataQuality (dataQualityAnalyze job.data none)

/-- Local insight list after step 1: one low-quality suggestion when
completeness is below 90. -/
def orchInsights1 (job : MLJobData) (now : Nat) : List AIInsight :=
  if (dataQualityAnalyze job.data none).completeness < 90
  then [qualityInsight (dataQualityAnalyze job.data none) now] else []

/-- Local insight list after step 2 (anomaly detection when enabled). -/
def orchInsights2 (job : MLJobData) (now : Nat) : List AIInsight :=
  orchInsights1 job now
    ++ (if job.enableAnomalyDetection then anomalyInsights job.data now else [])

/-- Local insight list after step 3 (forecasting when enabled). -/
def orchInsights3 (job : MLJobData) (now : Nat) : List AIInsight :=
  orchInsights2 job now
    ++ (if job.enableForecasting then forecastInsights job.data now else [])

/-- Step 4: the guarded KPI call applied to the step-1 report. -/
def orchKpiStep (job : MLJobData) (report : Report)
    (kpiResult : Except String (List KPISuggestion)) (now : Nat) :
    Report × List AIInsight :=
  kpiApply (orchR2 job report) job.enableKPISuggestions kpiResult now

/-- Local insight list after step 5 (correlations, unconditional). -/
def orchInsights5 (job : MLJobData) (report : Report)
    (kpiResult : Except String (List KPISuggestion)) (now : Nat) :
    List AIInsight :=
  orchInsights3 job now ++ (orchKpiStep job report kpiResult now).2
    ++ (findCorrelations job.data).map (fun c => corrInsight c now)

/-- Report persisted by the success path: all accumulated insights applied
one by one to the post-KPI report. -/
def orchFinalReport (job : MLJobData) (report : Report)
    (kpiResult : Except String (List KPISuggestion)) (now : Nat) : Report :=
  (orchInsights5 job report kpiResult now).foldl Report.addAIInsight
    (orchKpiStep job report kpiResult now).1

/-- MLAnalysisWorker.processAnalysis. Order of the source: markAsAnalyzing
plus update; data-quality scoring with setDataQuality and the
low-completeness insight; anomaly detection when enabled; forecasting when
enabled; the guarded KPI call; correlation discovery; then a single
application of the accumulated insights to the report followed by the final
update. The catch block updates the report as mutated so far, without the
accumulated insights and without marking it failed. -/
def processAnalysis (repo : List Report) (job : MLJobData)
    (fault : Option FaultStep) (kpiResult : Except String (List KPISuggestion))
    (now : Nat) : MLRun :=
  match repoFindById repo job.reportId with
  | none => { repo := repo, accumulated := [], failed := false, found := false }
  | some report =>
      let r1 := report.markAsAnalyzing
      let repo1 := repoUpdate repo r1
      if fault = some FaultStep.quality then
        { repo := repoUpdate repo1 r1, accumulated := [],
          failed := true, found := true }
      else if job.enableAnomalyDetection = true ∧ fault = some FaultStep.anomaly then
        { repo := repoUpdate repo1 (orchR2 job report),
          accumulated := orchInsights1 job now, failed := true, found := true }
      else if job.enableForecasting = true ∧ fault = some FaultStep.forecasting then
        { repo := repoUpdate repo1 (orchR2 job report),
          accumulated := orchInsights2 job now, failed := true, found := true }
      else if fault = some FaultStep.correlation then
        { repo := repoUpdate repo1 (orchKpiStep job report kpiResult now).1,
          accumulated := orchInsights3 job now
            ++ (orchKpiStep job report kpiResult now).2,
          failed := true, found := true }
      else
        { repo := repoUpdate repo1 (orchFinalReport job report kpiResult now),
          accumulated := orchInsights5 job report kpiResult now,
          failed := false, found := true }

/-- Report stored for the concrete analysis-fault run. -/
def mlReport : Report :=
  { id := "r-ml"
    userId := "u-1"
    type := ReportType.SALES
    format := ReportFormat.PDF
    metadata := { title := "Ventas" }
    createdAt := 100 }

/-- Analysis job of the concrete fault run: one field named a with a null
and a numeric value, giving completeness 50 and therefore a quality insight
before the injected correlation-step failure. -/
def mlJob : MLJobData :=
  { reportId := "r-ml"
    data := [[("a", JSValue.null)], [("a", JSValue.num 1)]] }

/-! GenerateReportUseCase (src/application/use-cases/GenerateReport.ts) and
AnalyzeDataUseCase (the synchronous analysis path). -/

/-- ReportDomainService.getMaxRows at the default environment limits
(MAX_ROWS_EXCEL 100000, MAX_ROWS_CSV 1000000). -/
def getMaxRows : ReportFormat → Nat
  | ReportFormat.EXCEL => 100000
  | ReportFormat.CSV => 1000000
  | ReportFormat.PDF => 10000
  | ReportFormat.HTML => 50000
  | ReportFormat.JSON => 1000000

/-- Test for a missing or blank string: trim().length === 0 of the source
holds exactly when every character is whitespace (trimming both ends leaves
the empty string), and an absent string is the empty one in this model. -/
def isBlank (s : String) : Bool := s.toList.all Char.isWhitespace

/-- ReportDomainService.validateReport: the first failing check, none when
the report passes. The format check of the source cannot fail here because
the format enum is total in this model. -/
def validateReport (report : Report) : Option String :=
  if isBlank report.userId then some "User ID is required"
  else if isBlank report.metadata.title then some "Report title is required"
  else if 200 < report.metadata.title.length then
    some "Report title must be less than 200 characters"
  else none

/-- ReportDomainService.shouldEnableMLAnalysis at the default minimum of 100
data points. -/
def shouldEnableMLAnalysis (rowCount : Nat) : Bool := decide (100 ≤ rowCount)

/-- GenerateReportDTO (the creation request). The filters and chartConfig
pass-through fields are not modelled, matching the metadata model. -/
structure GenerateReportDTO where
  userId : String
  type : ReportType
  format : ReportFormat
  title : String
  description : Option String := none
  data : List Row
  columns : Option (List String) := none
  dataSource : Option String := none
  emailTo : Option String := none
  aiAnalysisEnabled : Option Bool := none
  deriving DecidableEq

/-- Report entity built by GenerateReportUseCase.execute: a PENDING report
with the request metadata, no artifact, no error, and aiAnalysisEnabled
defaulting to true; newId stands for the generated uuid and now for the
creation Date. -/
def reportFromDTO (dto : GenerateReportDTO) (newId : String) (now : Nat) :
    Report :=
  { id := newId
    userId := dto.userId
    type := dto.type
    format := dto.format
    metadata := { title := dto.title
                  description := dto.description
                  columns := dto.columns
                  dataSource := dto.dataSource
                  recordCount := some dto.data.length }
    status := ReportStatus.PENDING
    createdAt := now
    emailTo := dto.emailTo
    downloadCount := 0
    aiAnalysisEnabled := dto.aiAnalysisEnabled.getD true }

/-- GenerateReportUseCase.execute. The repository save is an insert at the
end of the stored list; the two queue add calls are parameters carrying
either success or the error the queue client throws; a thrown error
propagates to the caller with the repository state reached so far — note the
save happens before the render enqueue and nothing rolls it back. -/
def generateReportExecute (repo : List Report) (dto : GenerateReportDTO)
    (newId : String) (now : Nat) (renderEnqueue : Except String Unit)
    (mlEnqueue : Except String Unit) : Except String Report × List Report :=
  if getMaxRows dto.format < dto.data.length then
    (Except.error ("El número de registros (" ++ toString dto.data.length
      ++ ") excede el límite para formato"), repo)
  else
    let report := reportFromDTO dto newId now
    match validateReport report with
    | some e => (Except.error e, repo)
    | none =>
        let repo1 := repo ++ [report]
        match renderEnqueue with
        | Except.error e => (Except.error e, repo1)
        | Except.ok _ =>
            if report.aiAnalysisEnabled = true
                ∧ shouldEnableMLAnalysis dto.data.length = true then
              match mlEnqueue with
              | Except.error e => (Except.error e, repo1)
              | Except.ok _ => (Except.ok report, repo1)
            else (Except.ok report, repo1)

/-- Concrete creation request of the enqueue-failure counterexample. -/
def dtoC3 : GenerateReportDTO :=
  { userId := "u-1"
    type := ReportType.SALES
    format := ReportFormat.PDF
    title := "Ventas"
    data := [[("a", JSValue.num 1)]] }

/-- AnalyzeDataDTO of the synchronous analysis path. -/
structure AnalyzeDataDTO where
  reportId : String
  data : List Row
  enableAnomalyDetection : Bool := false
  enableForecasting : Bool := false
  enableKPISuggestions : Bool := false
  deriving DecidableEq

/-- AnalysisResult returned by the IMLService collaborator. -/
structure AnalysisResult where
  reportId : String
  insights : List AIInsight
  suggestedKPIs : List KPISuggestion
  dataQuality : Option DataQualityMetrics
  processingTime : Int
  deriving DecidableEq

/-- AnalyzeDataUseCase.execute: unknown report and disabled analysis are
rejected; markAsAnalyzing is persisted; then the ML service result (a
parameter, since IMLService is a collaborator) is applied — on success the
insights, KPI suggestions and quality snapshot update the report, on failure
the report is marked FAILED with a wrapping message, persisted, and the
error is rethrown. The parameters now and elapsed stand for the failure
Date and the measured processing time. -/
def analyzeDataExecute (repo : List Report) (dto : AnalyzeDataDTO)
    (mlResult : Except String AnalysisResult) (now : Nat) (elapsed : Int) :
    Except String AnalysisResult × List Report :=
  match repoFindById repo dto.reportId with
  | none => (Except.error "Reporte no encontrado", repo)
  | some report =>
      if report.aiAnalysisEnabled = false then
        (Except.error "El análisis de IA no está habilitado para este reporte",
          repo)
      else
        let r1 := report.markAsAnalyzing
        let repo1 := repoUpdate repo r1
        match mlResult with
        | Except.error e =>
            let r2 := r1.markAsFailed ("Error en análisis de IA: " ++ e) now
            (Except.error e, repoUpdate repo1 r2)
        | Except.ok result =>
            let r2 := result.insights.foldl Report.addAIInsight r1
            let r3 := if 0 < result.suggestedKPIs.length then
                r2.addKPISuggestions result.suggestedKPIs
              else r2
            let r4 := match result.dataQuality with
              | some q => r3.setDataQuality q
              | none => r3
            (Except.ok { result with processingTime := elapsed },
              repoUpdate repo1 r4)

/-! Theorems. -/

theorem Report.artifactErrorInv_applyOp (r : Report) (op : ReportOp)
    (h : r.artifactErrorInv)
    (hok : op.isTransition = true → r.status.isTerminal = false) :
    (r.applyOp op).artifactErrorInv := by
  obtain ⟨hnt, hc, hf⟩ := h
  cases op with
  | markAsProcessing =>
      have := hnt (hok rfl)
      simp_all [Report.applyOp, Report.markAsProcessing, Report.artifactErrorInv,
        ReportStatus.isTerminal]
  | markAsAnalyzing =>
      have := hnt (hok rfl)
      simp_all [Report.applyOp, Report.markAsAnalyzing, Report.artifactErrorInv,
        ReportStatus.isTerminal]
  | markAsCompleted fp fs du now =>
      have := hnt (hok rfl)
      simp_all [Report.applyOp, Report.markAsCompleted, Report.artifactErrorInv,
        ReportStatus.isTerminal]
  | markAsFailed e now =>
      have := hnt (hok rfl)
      simp_all [Report.applyOp, Report.markAsFailed, Report.artifactErrorInv,
        ReportStatus.isTerminal]
  | addAIInsight i =>
      simp_all [Report.applyOp, Report.addAIInsight, Report.artifactErrorInv]
  | addKPISuggestions ks =>
      simp_all [Report.applyOp, Report.addKPISuggestions, Report.artifactErrorInv]
  | setDataQuality q =>
      simp_all [Report.applyOp, Report.setDataQuality, Report.artifactErrorInv]

theorem Report.artifactErrorInv_applyOps (r : Report) (ops : List ReportOp)
    (h : r.artifactErrorInv) (hok : r.okOps ops = true) :
    (r.applyOps ops).artifactErrorInv := by
  induction ops generalizing r with
  | nil => simpa [Report.applyOps] using h
  | cons op rest ih =>
      simp only [Report.okOps, Bool.and_eq_true, Bool.or_eq_true,
        Bool.not_eq_true'] at hok
      obtain ⟨hhead, htail⟩ := hok
      have hstep : (r.applyOp op).artifactErrorInv := by
        refine Report.artifactErrorInv_applyOp r op h ?_
        intro htr
        rcases hhead with h1 | h1
        · exact absurd htr (by simp [h1])
        · exact h1
      simpa [Report.applyOps] using ih (r.applyOp op) hstep htail

/-- C1 (amended): the lifecycle transition methods of Report are unguarded:
each call unconditionally overwrites the status with its target value, for
every starting state including the terminal ones, and never raises. In
particular markAsCompleted invoked after markAsFailed silently turns the
FAILED report into a COMPLETED one. -/
theorem c1_transitions_unguarded (r : Report) (fp du e : String) (fs : ℚ)
    (now now2 : Nat) :
    (r.markAsProcessing).status = ReportStatus.PROCESSING
    ∧ (r.markAsAnalyzing).status = ReportStatus.ANALYZING
    ∧ (r.markAsCompleted fp fs du now).status = ReportStatus.COMPLETED
    ∧ (r.markAsFailed e now).status = ReportStatus.FAILED
    ∧ ((r.markAsFailed e now).markAsCompleted fp fs du now2).status
        = ReportStatus.COMPLETED :=
  ⟨rfl, rfl, rfl, rfl, rfl⟩

/-- C1 counterexample: on a FAILED (terminal) report, markAsCompleted is not
rejected and is not a no-op: it silently changes the status to COMPLETED. -/
theorem c1_counterexample :
    (sampleReport.markAsFailed "boom" 1000).status = ReportStatus.FAILED
    ∧ ((sampleReport.markAsFailed "boom" 1000).markAsCompleted
        "/tmp/r.pdf" 2048 "/download/r-1" 2000).status = ReportStatus.COMPLETED
    ∧ ((sampleReport.markAsFailed "boom" 1000).markAsCompleted
        "/tmp/r.pdf" 2048 "/download/r-1" 2000)
        ≠ sampleReport.markAsFailed "boom" 1000 := by
  refine ⟨rfl, rfl, ?_⟩
  intro h
  have := congrArg Report.status h
  simp [Report.markAsCompleted, Report.markAsFailed] at this

/-- C2 (amended): starting from a freshly created report (PENDING, no
artifact fields, no error), any sequence of lifecycle operations in which no
status transition is invoked on an already terminal report preserves the
invariant: the artifact fields and the error are never both present, and all
of them are absent whenever the status is non-terminal. The restriction is
necessary: the unguarded transitions of C1 can otherwise leave a terminal
report with both fields set, see the counterexample. -/
theorem c2_artifact_error_exclusive (r0 : Report) (ops : List ReportOp)
    (hstatus : r0.status = ReportStatus.PENDING)
    (hfp : r0.filePath = none) (hfs : r0.fileSize = none)
    (hdu : r0.downloadUrl = none) (herr : r0.error = none)
    (hok : r0.okOps ops = true) :
    ¬((r0.applyOps ops).filePath.isSome ∧ (r0.applyOps ops).error.isSome)
    ∧ ((r0.applyOps ops).status.isTerminal = false →
        (r0.applyOps ops).filePath = none ∧ (r0.applyOps ops).fileSize = none
        ∧ (r0.applyOps ops).downloadUrl = none ∧ (r0.applyOps ops).error = none) := by
  have h0 : r0.artifactErrorInv := by
    refine ⟨fun _ => ⟨hfp, hfs, hdu, herr⟩, fun h => herr, fun h => ⟨hfp, hfs, hdu⟩⟩
  have h := Report.artifactErrorInv_applyOps r0 ops h0 hok
  obtain ⟨hnt, hc, hf⟩ := h
  constructor
  · rintro ⟨hp, he⟩
    cases hterm : (r0.applyOps ops).status with
    | COMPLETED => simp [hc hterm] at he
    | FAILED => simp [(hf hterm).1] at hp
    | PENDING =>
        have := (hnt (by simp [hterm, ReportStatus.isTerminal])).1
        simp [this] at hp
    | PROCESSING =>
        have := (hnt (by simp [hterm, ReportStatus.isTerminal])).1
        simp [this] at hp
    | ANALYZING =>
        have := (hnt (by simp [hterm, ReportStatus.isTerminal])).1
        simp [this] at hp
  · exact hnt

/-- C2 witness: a concrete well-behaved run (process, then complete) reaching
COMPLETED with the artifact present and no error. -/
theorem c2_artifact_error_exclusive_witness :
    ¬((sampleReport.applyOps
        [ReportOp.markAsProcessing,
         ReportOp.markAsCompleted "/tmp/r.pdf" 2048 "/download/r-1" 2000]).filePath.isSome
      ∧ (sampleReport.applyOps
        [ReportOp.markAsProcessing,
         ReportOp.markAsCompleted "/tmp/r.pdf" 2048 "/download/r-1" 2000]).error.isSome) :=
  (c2_artifact_error_exclusive sampleReport
    [ReportOp.markAsProcessing,
     ReportOp.markAsCompleted "/tmp/r.pdf" 2048 "/download/r-1" 2000]
    rfl rfl rfl rfl rfl rfl).1

/-- C2 counterexample: the claim quantifies over every sequence of lifecycle
operations; the sequence markAsFailed followed by markAsCompleted (which the
code accepts, see C1) yields a report with the error and the artifact fields
simultaneously present. -/
theorem c2_counterexample :
    (sampleReport.applyOps
      [ReportOp.markAsFailed "boom" 1000,
       ReportOp.markAsCompleted "/tmp/r.pdf" 2048 "/download/r-1" 2000]).error
      = some "boom"
    ∧ (sampleReport.applyOps
      [ReportOp.markAsFailed "boom" 1000,
       ReportOp.markAsCompleted "/tmp/r.pdf" 2048 "/download/r-1" 2000]).filePath
      = some "/tmp/r.pdf" :=
  ⟨rfl, rfl⟩

theorem sum_of_nonneg_eq_zero (l : List ℚ) (h : ∀ x ∈ l, 0 ≤ x)
    (hs : l.sum = 0) : ∀ x ∈ l, x = 0 := by
  induction l with
  | nil => simp
  | cons a t ih =>
      simp only [List.sum_cons] at hs
      have ha : 0 ≤ a := h a (by simp)
      have ht : 0 ≤ t.sum := List.sum_nonneg (fun x hx => h x (by simp [hx]))
      have ha0 : a = 0 := by linarith
      have hts : t.sum = 0 := by linarith
      intro x hx
      rcases List.mem_cons.mp hx with h1 | h1
      · simpa [h1] using ha0
      · exact ih (fun y hy => h y (by simp [hy])) hts x h1

theorem varianceQ_zero_all_mean (l : List ℚ) (hne : l ≠ [])
    (hv : varianceQ l = 0) : ∀ x ∈ l, x = meanQ l := by
  have hlen : ((l.length : ℚ)) ≠ 0 := by
    have hl : l.length ≠ 0 := by
      intro h
      exact hne (List.length_eq_zero.mp h)
    exact_mod_cast hl
  have hsum : (l.map (fun x => (x - meanQ l) ^ 2)).sum = 0 := by
    unfold varianceQ at hv
    rcases div_eq_zero_iff.mp hv with h | h
    · exact h
    · exact absurd h hlen
  intro x hx
  have hmem : (x - meanQ l) ^ 2 ∈ l.map (fun x => (x - meanQ l) ^ 2) :=
    List.mem_map_of_mem _ hx
  have hz : (x - meanQ l) ^ 2 = 0 := by
    refine sum_of_nonneg_eq_zero _ ?_ hsum _ hmem
    intro y hy
    rcases List.mem_map.mp hy with ⟨z, _, rfl⟩
    exact sq_nonneg _
  have := sq_eq_zero_iff.mp hz
  linarith

theorem mem_insertSorted (x y : ℚ) (l : List ℚ) :
    y ∈ insertSorted x l ↔ y = x ∨ y ∈ l := by
  induction l with
  | nil => simp [insertSorted]
  | cons a t ih =>
      by_cases hle : x ≤ a
      · simp [insertSorted, hle]
      · simp [insertSorted, hle, ih]
        tauto

theorem length_insertSorted (x : ℚ) (l : List ℚ) :
    (insertSorted x l).length = l.length + 1 := by
  induction l with
  | nil => simp [insertSorted]
  | cons a t ih =>
      by_cases hle : x ≤ a
      · simp [insertSorted, hle]
      · simp [insertSorted, hle, ih]

theorem mem_jsSortAsc (y : ℚ) (l : List ℚ) : y ∈ jsSortAsc l ↔ y ∈ l := by
  induction l with
  | nil => simp [jsSortAsc]
  | cons a t ih =>
      have : jsSortAsc (a :: t) = insertSorted a (jsSortAsc t) := rfl
      rw [this, mem_insertSorted]
      simp [ih]

theorem length_jsSortAsc (l : List ℚ) : (jsSortAsc l).length = l.length := by
  induction l with
  | nil => rfl
  | cons a t ih =>
      have : jsSortAsc (a :: t) = insertSorted a (jsSortAsc t) := rfl
      rw [this, length_insertSorted, ih]
      simp

theorem getD_all_eq (l : List ℚ) (c d : ℚ) (hall : ∀ y ∈ l, y = c)
    (k : Nat) (hk : k < l.length) : l.getD k d = c := by
  induction l generalizing k with
  | nil => simp at hk
  | cons a t ih =>
      cases k with
      | zero => simpa [List.getD] using hall a (by simp)
      | succ n =>
          simp only [List.getD_cons_succ]
          exact ih (fun y hy => hall y (by simp [hy])) n (by simpa using hk)

theorem quantileSorted_all_eq (x : List ℚ) (c p : ℚ) (hne : x ≠ [])
    (hall : ∀ y ∈ x, y = c) (h0 : 0 < p) (h1 : p < 1) :
    quantileSorted x p = c := by
  have hlen : 0 < x.length := List.length_pos.mpr hne
  have hlenq : (0 : ℚ) < (x.length : ℚ) := by exact_mod_cast hlen
  have hp1 : ¬(p = 1) := by intro h; simp [h] at h1
  have hp0 : ¬(p = 0) := by intro h; simp [h] at h0
  unfold quantileSorted
  rw [if_neg hp1, if_neg hp0]
  have hidxpos : 0 < (x.length : ℚ) * p := mul_pos hlenq h0
  have hidxlt : (x.length : ℚ) * p < (x.length : ℚ) := by
    calc (x.length : ℚ) * p < (x.length : ℚ) * 1 :=
          mul_lt_mul_of_pos_left h1 hlenq
    _ = (x.length : ℚ) := mul_one _
  by_cases hden : ((x.length : ℚ) * p).den = 1
  · rw [if_neg (by simp [hden])]
    have hint : ((((x.length : ℚ) * p).num : ℚ)) = (x.length : ℚ) * p := by
      conv_rhs => rw [← Rat.num_div_den ((x.length : ℚ) * p)]
      rw [hden]
      simp
    have hnum_pos : 0 < ((x.length : ℚ) * p).num := Rat.num_pos.mpr hidxpos
    have hnum_lt : ((x.length : ℚ) * p).num < (x.length : ℤ) := by
      have : ((((x.length : ℚ) * p).num : ℚ)) < ((x.length : ℤ) : ℚ) := by
        rw [hint]; exact_mod_cast hidxlt
      exact_mod_cast this
    have htn_lt : (((x.length : ℚ) * p).num).toNat < x.length := by
      omega
    by_cases hpar : x.length % 2 = 0
    · rw [if_pos hpar]
      have h1g : x.getD ((((x.length : ℚ) * p).num).toNat - 1) 0 = c :=
        getD_all_eq x c 0 hall _ (by omega)
      have h2g : x.getD ((((x.length : ℚ) * p).num).toNat) 0 = c :=
        getD_all_eq x c 0 hall _ htn_lt
      rw [h1g, h2g]
      ring
    · rw [if_neg hpar]
      exact getD_all_eq x c 0 hall _ htn_lt
  · rw [if_pos (by simp [hden])]
    have hceil_pos : 0 < ⌈(x.length : ℚ) * p⌉ := Int.ceil_pos.mpr hidxpos
    have hceil_le : ⌈(x.length : ℚ) * p⌉ ≤ (x.length : ℤ) := by
      exact Int.ceil_le.mpr (by exact_mod_cast hidxlt.le)
    have : (⌈(x.length : ℚ) * p⌉).toNat - 1 < x.length := by omega
    exact getD_all_eq x c 0 hall _ this

theorem mem_mapWithIndex {α : Type} (f : Nat → ℚ → α) (n : Nat) (l : List ℚ)
    (y : α) (hy : y ∈ mapWithIndex f n l) : ∃ i x, x ∈ l ∧ y = f i x := by
  induction l generalizing n with
  | nil => simp [mapWithIndex] at hy
  | cons a t ih =>
      simp only [mapWithIndex, List.mem_cons] at hy
      rcases hy with h | h
      · exact ⟨n, a, by simp, h⟩
      · rcases ih (n + 1) h with ⟨i, x, hx, hfx⟩
        exact ⟨i, x, by simp [hx], hfx⟩

theorem filter_length_zero {α : Type} (l : List α) (p : α → Bool)
    (h : ∀ x ∈ l, p x = false) : (l.filter p).length = 0 := by
  induction l with
  | nil => simp
  | cons a t ih =>
      rw [List.filter_cons, if_neg (by simp [h a (by simp)])]
      exact ih (fun x hx => h x (by simp [hx]))

theorem zScoreAnomalies_zero_variance (data : List ℚ) (threshold : ℚ)
    (hmean : ∀ x ∈ data, x = meanQ data) (hv : varianceQ data = 0) :
    ∀ p ∈ zScoreAnomalies data threshold,
      p.scoreSq = JSNum.nan ∧ p.isAnomaly = false := by
  intro p hp
  simp only [zScoreAnomalies] at hp
  rcases mem_mapWithIndex _ _ _ _ hp with ⟨i, x, hx, rfl⟩
  have hsub : x - meanQ data = 0 := by rw [hmean x hx]; ring
  constructor
  · simp [hsub, hv, jsDiv]
  · simp [hsub, hv, jsDiv, zScoreExceeds]

theorem iqrAnomalies_zero_variance (data : List ℚ) (hne : data ≠ [])
    (hmean : ∀ x ∈ data, x = meanQ data) :
    ∀ p ∈ iqrAnomalies data,
      p.score = JSNum.fin 0 ∧ p.isAnomaly = false := by
  have hsne : jsSortAsc data ≠ [] := by
    intro h
    have := length_jsSortAsc data
    rw [h] at this
    exact hne (List.length_eq_zero.mp this.symm)
  have hsall : ∀ y ∈ jsSortAsc data, y = meanQ data :=
    fun y hy => hmean y ((mem_jsSortAsc y data).mp hy)
  have hq1 : quantileSorted (jsSortAsc data) (1 / 4) = meanQ data :=
    quantileSorted_all_eq _ _ _ hsne hsall (by norm_num) (by norm_num)
  have hq3 : quantileSorted (jsSortAsc data) (3 / 4) = meanQ data :=
    quantileSorted_all_eq _ _ _ hsne hsall (by norm_num) (by norm_num)
  intro p hp
  simp only [iqrAnomalies, hq1, hq3] at hp
  rcases mem_mapWithIndex _ _ _ _ hp with ⟨i, v, hvmem, rfl⟩
  have hvc : v = meanQ data := hmean v hvmem
  subst hvc
  constructor
  · simp [jsAbs]
  · simp

theorem isolationAnomalies_zero_variance (data : List ℚ)
    (hmean : ∀ x ∈ data, x = meanQ data) :
    ∀ p ∈ isolationAnomalies data 0,
      p.score = JSNum.nan ∧ p.isAnomaly = false := by
  intro p hp
  simp only [isolationAnomalies] at hp
  rcases mem_mapWithIndex _ _ _ _ hp with ⟨i, v, hvmem, rfl⟩
  have hsub : v - meanQ data = 0 := by rw [hmean v hvmem]; ring
  constructor
  · simp [hsub, jsDiv, jsAbs, jsMul]
  · simp [hsub, jsDiv, jsAbs, jsMul, jsGt]

/-- C6 (amended): on every non-empty zero-variance series, none of the three
detection methods flags any point (anomalyCount = 0 for all of them, for any
threshold), and the IQR scores are all exactly 0; however the claimed
guard against division by zero does not exist in the source: the z-score and
isolation-proxy scores are the IEEE quotient NaN (0 / 0), not 0. The
stdDev parameter of the isolation method is its standard deviation, pinned to
0 by the zero-variance hypotheses. -/
theorem c6_zero_variance_flags_nothing (data : List ℚ) (threshold stdDev : ℚ)
    (hne : data ≠ []) (hv : varianceQ data = 0)
    (hsd : stdDev * stdDev = varianceQ data) :
    (detectWithZScore data threshold).anomalyCount = 0
    ∧ (∀ p ∈ (detectWithZScore data threshold).anomalies, p.scoreSq = JSNum.nan)
    ∧ (detectWithIQR data).anomalyCount = 0
    ∧ (∀ p ∈ (detectWithIQR data).anomalies, p.score = JSNum.fin 0)
    ∧ (detectWithIsolationForest data stdDev).anomalyCount = 0
    ∧ (∀ p ∈ (detectWithIsolationForest data stdDev).anomalies,
        p.score = JSNum.nan) := by
  have hmean := varianceQ_zero_all_mean data hne hv
  have hsd0 : stdDev = 0 := mul_self_eq_zero.mp (hsd.trans hv)
  subst hsd0
  have hz := zScoreAnomalies_zero_variance data threshold hmean hv
  have hi := iqrAnomalies_zero_variance data hne hmean
  have hiso := isolationAnomalies_zero_variance data hmean
  refine ⟨?_, ?_, ?_, ?_, ?_, ?_⟩
  · exact filter_length_zero _ _ (fun p hp => (hz p hp).2)
  · exact fun p hp => (hz p hp).1
  · exact filter_length_zero _ _ (fun p hp => (hi p hp).2)
  · exact fun p hp => (hi p hp).1
  · exact filter_length_zero _ _ (fun p hp => (hiso p hp).2)
  · exact fun p hp => (hiso p hp).1

/-- C6 witness: the zero-variance series [5, 5, 5] at the default threshold
flags nothing under any of the three methods. -/
theorem c6_zero_variance_flags_nothing_witness :
    (detectWithZScore [5, 5, 5] (5 / 2)).anomalyCount = 0
    ∧ (detectWithIQR [5, 5, 5]).anomalyCount = 0
    ∧ (detectWithIsolationForest [5, 5, 5] 0).anomalyCount = 0 := by
  have h := c6_zero_variance_flags_nothing [5, 5, 5] (5 / 2) 0
    (by simp) (by norm_num [varianceQ, meanQ]) (by norm_num [varianceQ, meanQ])
  exact ⟨h.1, h.2.2.1, h.2.2.2.2.1⟩

/-- C6 counterexample: the claim says every point scores 0 with no division
by zero; on the zero-variance series [5, 5, 5] the z-score of the first point
is the division 0 / 0, recorded as NaN, not 0. -/
theorem c6_counterexample :
    ((detectWithZScore [5, 5, 5] (5 / 2)).anomalies.getD 0 default).scoreSq
      = JSNum.nan
    ∧ ((detectWithZScore [5, 5, 5] (5 / 2)).anomalies.getD 0 default).scoreSq
      ≠ JSNum.fin 0 := by
  have h : ((detectWithZScore [5, 5, 5] (5 / 2)).anomalies.getD 0
      default).scoreSq = JSNum.nan := by
    norm_num [detectWithZScore, zScoreAnomalies, mapWithIndex, meanQ,
      varianceQ, jsDiv, zScoreExceeds]
  refine ⟨h, ?_⟩
  rw [h]
  simp

/-- C7 counterexample: on the scenario-B series [100, 120, 115, 300, 125,
130] with threshold 2.5, the code flags nothing: the z-score of the point 300
is sqrt(8281 / 1688), about 2.215, below 2.5, so the point at index 3 is not
an anomaly and anomalyCount is 0, not 1 as claimed. -/
theorem c7_counterexample :
    ((detectWithZScore seriesB (5 / 2)).anomalies.getD 3 default).value = 300
    ∧ ((detectWithZScore seriesB (5 / 2)).anomalies.getD 3 default).isAnomaly
      = false
    ∧ (detectWithZScore seriesB (5 / 2)).anomalyCount = 0 := by
  refine ⟨?_, ?_, ?_⟩ <;>
    norm_num [detectWithZScore, zScoreAnomalies, seriesB, meanQ, varianceQ,
      mapWithIndex, jsDiv, zScoreExceeds]

/-- C7 (amended): on the series [100, 120, 115, 300, 125, 130] the z-score
detector flags the point at index 3 (value 300) as the single anomaly only
for a lower threshold such as 2: there anomalyCount = 1 and index 3 is the
flagged point; at the specified threshold 2.5 it flags nothing (see the
counterexample). -/
theorem c7_threshold_two_flags_index_three :
    ((detectWithZScore seriesB 2).anomalies.map (fun p => p.isAnomaly))
      = [false, false, false, true, false, false]
    ∧ ((detectWithZScore seriesB 2).anomalies.getD 3 default).value = 300
    ∧ (detectWithZScore seriesB 2).anomalyCount = 1 := by
  refine ⟨?_, ?_, ?_⟩ <;>
    norm_num [detectWithZScore, zScoreAnomalies, seriesB, meanQ, varianceQ,
      mapWithIndex, jsDiv, zScoreExceeds]

/-- C5: the submission-facing forecast operation rejects sequences shorter
than 3 points with the insufficient-data error (the spec name
InsufficientDataError denotes this minimum-points rejection); whenever it
returns a result, series of length 3 to 9 use the linear-regression method
and series of length 10 or more use the weighted-moving-average method, as
recorded in the method field. -/
theorem c5_forecast_method_selection (dto : ForecastDTO) :
    (dto.data.length < 3 →
      forecastTrendsExecute dto = Except.error
        "Se requieren al menos 3 puntos de datos para realizar pronósticos")
    ∧ (∀ r, forecastTrendsExecute dto = Except.ok r →
        3 ≤ dto.data.length → dto.data.length ≤ 9 →
        r.method = "linear_regression")
    ∧ (∀ r, forecastTrendsExecute dto = Except.ok r →
        10 ≤ dto.data.length →
        r.method = "weighted_moving_average") := by
  refine ⟨?_, ?_, ?_⟩
  · intro h
    simp [forecastTrendsExecute, h]
  · intro r hr h3 h9
    unfold forecastTrendsExecute at hr
    rw [if_neg (by omega)] at hr
    by_cases hp : dto.periods ≤ 0 ∨ 24 < dto.periods
    · rw [if_pos hp] at hr
      cases hr
    · rw [if_neg hp] at hr
      rw [← Except.ok.inj hr]
      unfold forecastQ
      rw [if_pos (by omega)]
      simp [simpleLinearForecast]
  · intro r hr h10
    unfold forecastTrendsExecute at hr
    rw [if_neg (by omega)] at hr
    by_cases hp : dto.periods ≤ 0 ∨ 24 < dto.periods
    · rw [if_pos hp] at hr
      cases hr
    · rw [if_neg hp] at hr
      rw [← Except.ok.inj hr]
      unfold forecastQ
      rw [if_neg (by omega)]
      simp [weightedMovingAverageForecast]

/-- C5 witness: a 2-point request is rejected with the minimum-points error;
a 3-point request succeeds with the linear-regression method; a 10-point
request succeeds with the weighted-moving-average method. -/
theorem c5_forecast_method_selection_witness :
    forecastTrendsExecute ⟨[1, 2], 3, none⟩ = Except.error
      "Se requieren al menos 3 puntos de datos para realizar pronósticos"
    ∧ (∃ r, forecastTrendsExecute ⟨[1, 2, 3], 3, none⟩ = Except.ok r
        ∧ r.method = "linear_regression")
    ∧ (∃ r, forecastTrendsExecute
          ⟨[1, 2, 3, 4, 5, 6, 7, 8, 9, 10], 3, none⟩ = Except.ok r
        ∧ r.method = "weighted_moving_average") := by
  have h1 := c5_forecast_method_selection ⟨[1, 2], 3, none⟩
  have h2 := c5_forecast_method_selection ⟨[1, 2, 3], 3, none⟩
  have h3 := c5_forecast_method_selection
    ⟨[1, 2, 3, 4, 5, 6, 7, 8, 9, 10], 3, none⟩
  have hok2 : forecastTrendsExecute ⟨[1, 2, 3], 3, none⟩
      = Except.ok (forecastQ [1, 2, 3] (Int.toNat 3)) := by
    simp [forecastTrendsExecute]
  have hok3 : forecastTrendsExecute ⟨[1, 2, 3, 4, 5, 6, 7, 8, 9, 10], 3, none⟩
      = Except.ok (forecastQ [1, 2, 3, 4, 5, 6, 7, 8, 9, 10] (Int.toNat 3)) := by
    simp [forecastTrendsExecute]
  refine ⟨h1.1 (by simp), ⟨_, hok2, h2.2.1 _ hok2 (by simp) (by simp)⟩,
    ⟨_, hok3, h3.2.2 _ hok3 (by simp)⟩⟩

theorem isFilled_iff (v : JSValue) :
    isFilled v = decide (v ≠ JSValue.null ∧ v ≠ JSValue.undef
      ∧ v ≠ JSValue.str "") := by
  cases v with
  | str s => by_cases h : s = "" <;> simp [isFilled, h]
  | num q => simp [isFilled]
  | boolean b => simp [isFilled]
  | null => simp [isFilled]
  | undef => simp [isFilled]

/-- C9: the data-quality scorer returns all-zero metrics on the empty record
set, and on every non-empty record set its completeness equals the
filled-cell count (cells that are not null, not undefined, not the empty
string) divided by rowCount times fieldCount, times 100, over the effective
field list (the keys of the first record unless explicitly passed). -/
theorem c9_data_quality_completeness :
    (∀ rf, dataQualityAnalyze [] rf = getEmptyMetrics)
    ∧ ∀ (data : List Row) (rf : Option (List String)), data ≠ [] →
        (dataQualityAnalyze data rf).completeness
          = (claimFilledCells data (effectiveFields data rf) : ℚ)
            / ((data.length : ℚ) * ((effectiveFields data rf).length : ℚ))
            * 100 := by
  constructor
  · intro rf
    simp [dataQualityAnalyze]
  · intro data rf hne
    have hlen : ¬(data.length = 0) := fun h => hne (List.length_eq_zero.mp h)
    have hsum : (data.map (fun row =>
        ((effectiveFields data rf).filter
          (fun f => isFilled (rowGet row f))).length)).sum
        = claimFilledCells data (effectiveFields data rf) := by
      unfold claimFilledCells
      congr 1
      refine List.map_congr_left ?_
      intro row _
      rw [List.countP_eq_length_filter]
      congr 1
      refine List.filter_congr ?_
      intro f _
      exact isFilled_iff _
    unfold dataQualityAnalyze
    rw [if_neg hlen]
    show calculateCompleteness data (effectiveFields data rf) = _
    unfold calculateCompleteness
    rw [hsum]

/-- C9 witness: the empty record set scores all zeros, and the two-field
record set with one fully-null and one fully-filled row scores completeness
50. -/
theorem c9_data_quality_completeness_witness :
    dataQualityAnalyze [] none = getEmptyMetrics
    ∧ (dataQualityAnalyze halfFilledRows none).completeness = 50 := by
  refine ⟨c9_data_quality_completeness.1 none, ?_⟩
  have h2 := c9_data_quality_completeness.2 halfFilledRows none
    (by simp [halfFilledRows])
  have hc : claimFilledCells halfFilledRows (effectiveFields halfFilledRows none)
      = 2 := by decide
  have hl1 : halfFilledRows.length = 2 := by decide
  have hl2 : (effectiveFields halfFilledRows none).length = 2 := by decide
  rw [h2, hc, hl1, hl2]
  norm_num

/-- C8 (amended): correlation discovery considers the ordered pairs of
fields classified as numeric (more than half of the values are numbers),
retains a pair only when both fields have more than 3 numeric samples and
|r| is strictly greater than 0.5, labels strength fuerte above 0.8 and
moderada above 0.6 (weak otherwise), and returns the first 3 retained pairs
in enumeration order: the source slices without sorting, so the result is
not ordered by |r|, and a pair with |r| exactly 0.5 is dropped. -/
theorem c8_correlation_retention (data : List Row) :
    findCorrelations data = (retainedCorrelations data).take 3
    ∧ (findCorrelations data).length ≤ 3
    ∧ ∀ c ∈ findCorrelations data,
        3 < (numericValuesOf data c.field1).length
        ∧ 3 < (numericValuesOf data c.field2).length
        ∧ corrAbsGt c.coefficient (1 / 2) = true
        ∧ c.coefficient = calculateCorrelation (numericValuesOf data c.field1)
            (numericValuesOf data c.field2)
        ∧ c.strength = (if corrAbsGt c.coefficient (4 / 5) then "fuerte"
            else if corrAbsGt c.coefficient (3 / 5) then "moderada"
            else "débil") := by
  refine ⟨rfl, ?_, ?_⟩
  · unfold findCorrelations
    rw [List.length_take]
    exact min_le_left _ _
  · intro c hc
    have hc2 : c ∈ retainedCorrelations data := List.mem_of_mem_take hc
    rcases List.mem_filterMap.mp hc2 with ⟨p, hp, hfp⟩
    simp only [] at hfp
    by_cases hlen : 3 < (numericValuesOf data p.1).length
        ∧ 3 < (numericValuesOf data p.2).length
    · rw [if_pos hlen] at hfp
      by_cases hret : corrAbsGt (calculateCorrelation (numericValuesOf data p.1)
          (numericValuesOf data p.2)) (1 / 2) = true
      · rw [if_pos hret] at hfp
        have he := Option.some.inj hfp
        subst he
        exact ⟨hlen.1, hlen.2, hret, rfl, rfl⟩
      · rw [if_neg hret] at hfp
        exact absurd hfp (by simp)
    · rw [if_neg hlen] at hfp
      exact absurd hfp (by simp)

/-- C8 witness: the three-field record set has three retained pairs; the
strongest one (fields b and c, r = 1) is a member with more than 3 samples
per field and |r| > 0.5. -/
theorem c8_correlation_retention_witness :
    (findCorrelations corrOrderRows).length ≤ 3
    ∧ 3 < (numericValuesOf corrOrderRows "b").length
    ∧ corrAbsGt (CorrValue.mk 5 25) (1 / 2) = true := by
  have hv1 : numericValuesOf corrOrderRows "a" = [1, 2, 3, 4] := by
    simp [numericValuesOf, rowGet, corrOrderRows]
  have hv2 : numericValuesOf corrOrderRows "b" = [2, 1, 4, 3] := by
    simp [numericValuesOf, rowGet, corrOrderRows]
  have hv3 : numericValuesOf corrOrderRows "c" = [2, 1, 4, 3] := by
    simp [numericValuesOf, rowGet, corrOrderRows]
  have hcab : calculateCorrelation [1, 2, 3, 4] [2, 1, 4, 3] = ⟨3, 25⟩ := by
    simp [calculateCorrelation]
    norm_num
  have hcbc : calculateCorrelation [2, 1, 4, 3] [2, 1, 4, 3] = ⟨5, 25⟩ := by
    simp [calculateCorrelation]
    norm_num
  have hfields : extractNumericFields corrOrderRows = ["a", "b", "c"] := by
    simp [extractNumericFields, firstRowKeys, rowGet, corrOrderRows]
    norm_num
  have hret : retainedCorrelations corrOrderRows
      = [⟨"a", "b", ⟨3, 25⟩, "débil"⟩, ⟨"a", "c", ⟨3, 25⟩, "débil"⟩,
         ⟨"b", "c", ⟨5, 25⟩, "fuerte"⟩] := by
    simp [retainedCorrelations, hfields, fieldPairs, hv1, hv2, hv3, hcab,
      hcbc, corrAbsGt, List.filterMap_cons]
    norm_num
  have hres : findCorrelations corrOrderRows
      = [⟨"a", "b", ⟨3, 25⟩, "débil"⟩, ⟨"a", "c", ⟨3, 25⟩, "débil"⟩,
         ⟨"b", "c", ⟨5, 25⟩, "fuerte"⟩] := by
    simp [findCorrelations, hret]
  have h := c8_correlation_retention corrOrderRows
  have hm := h.2.2 ⟨"b", "c", ⟨5, 25⟩, "fuerte"⟩ (by rw [hres]; simp)
  exact ⟨h.2.1, hm.1, hm.2.2.1⟩

/-- C8 counterexample: the claim requires retention at |r| ≥ 0.5 and a
result ordered by |r| descending; the record set corrBoundaryRows has a
numeric field pair with more than 3 samples each and |r| exactly 0.5
(numerator 6, denominator product 144), yet findCorrelations drops it
(strict comparison); and on corrOrderRows the returned list ends with its
strongest pair (strength fuerte, r = 1) while the first entry has |r| = 0.6,
so the result is not ordered by |r| descending. -/
theorem c8_counterexample :
    (calculateCorrelation (numericValuesOf corrBoundaryRows "a")
        (numericValuesOf corrBoundaryRows "b")).num ^ 2
      = (1 / 2) ^ 2 * (calculateCorrelation (numericValuesOf corrBoundaryRows "a")
          (numericValuesOf corrBoundaryRows "b")).denSq
    ∧ 0 < (calculateCorrelation (numericValuesOf corrBoundaryRows "a")
        (numericValuesOf corrBoundaryRows "b")).denSq
    ∧ 3 < (numericValuesOf corrBoundaryRows "a").length
    ∧ 3 < (numericValuesOf corrBoundaryRows "b").length
    ∧ findCorrelations corrBoundaryRows = []
    ∧ (findCorrelations corrOrderRows).map (fun c => c.strength)
        = ["débil", "débil", "fuerte"]
    ∧ ((findCorrelations corrOrderRows).getD 0 default).coefficient.num ^ 2
        * ((findCorrelations corrOrderRows).getD 2 default).coefficient.denSq
      < ((findCorrelations corrOrderRows).getD 2 default).coefficient.num ^ 2
        * ((findCorrelations corrOrderRows).getD 0 default).coefficient.denSq := by
  have hva : numericValuesOf corrBoundaryRows "a" = [0, 0, 0, 2, 2, 2] := by
    simp [numericValuesOf, rowGet, corrBoundaryRows]
  have hvb : numericValuesOf corrBoundaryRows "b" = [6, 0, 3, 5, 5, 5] := by
    simp [numericValuesOf, rowGet, corrBoundaryRows]
  have hcorr : calculateCorrelation [0, 0, 0, 2, 2, 2] [6, 0, 3, 5, 5, 5]
      = ⟨6, 144⟩ := by
    simp [calculateCorrelation]
    norm_num
  have hbfields : extractNumericFields corrBoundaryRows = ["a", "b"] := by
    simp [extractNumericFields, firstRowKeys, rowGet, corrBoundaryRows]
    norm_num
  have hbret : retainedCorrelations corrBoundaryRows = [] := by
    simp [retainedCorrelations, hbfields, fieldPairs, hva, hvb, hcorr,
      corrAbsGt, List.filterMap_cons]
    norm_num
  have hres1 : findCorrelations corrBoundaryRows = [] := by
    simp [findCorrelations, hbret]
  have hv1 : numericValuesOf corrOrderRows "a" = [1, 2, 3, 4] := by
    simp [numericValuesOf, rowGet, corrOrderRows]
  have hv2 : numericValuesOf corrOrderRows "b" = [2, 1, 4, 3] := by
    simp [numericValuesOf, rowGet, corrOrderRows]
  have hv3 : numericValuesOf corrOrderRows "c" = [2, 1, 4, 3] := by
    simp [numericValuesOf, rowGet, corrOrderRows]
  have hcab : calculateCorrelation [1, 2, 3, 4] [2, 1, 4, 3] = ⟨3, 25⟩ := by
    simp [calculateCorrelation]
    norm_num
  have hcbc : calculateCorrelation [2, 1, 4, 3] [2, 1, 4, 3] = ⟨5, 25⟩ := by
    simp [calculateCorrelation]
    norm_num
  have hofields : extractNumericFields corrOrderRows = ["a", "b", "c"] := by
    simp [extractNumericFields, firstRowKeys, rowGet, corrOrderRows]
    norm_num
  have horet : retainedCorrelations corrOrderRows
      = [⟨"a", "b", ⟨3, 25⟩, "débil"⟩, ⟨"a", "c", ⟨3, 25⟩, "débil"⟩,
         ⟨"b", "c", ⟨5, 25⟩, "fuerte"⟩] := by
    simp [retainedCorrelations, hofields, fieldPairs, hv1, hv2, hv3, hcab,
      hcbc, corrAbsGt, List.filterMap_cons]
    norm_num
  have hres2 : findCorrelations corrOrderRows
      = [⟨"a", "b", ⟨3, 25⟩, "débil"⟩, ⟨"a", "c", ⟨3, 25⟩, "débil"⟩,
         ⟨"b", "c", ⟨5, 25⟩, "fuerte"⟩] := by
    simp [findCorrelations, horet]
  refine ⟨?_, ?_, ?_, ?_, hres1, ?_, ?_⟩
  · rw [hva, hvb, hcorr]
    norm_num
  · rw [hva, hvb, hcorr]
    norm_num
  · rw [hva]
    norm_num
  · rw [hvb]
    norm_num
  · rw [hres2]
    simp
  · rw [hres2]
    norm_num

theorem repoFindById_id (repo : List Report) (id : String) (r : Report)
    (h : repoFindById repo id = some r) : r.id = id := by
  induction repo with
  | nil => simp [repoFindById] at h
  | cons a rest ih =>
      by_cases ha : a.id = id
      · simp [repoFindById, ha] at h
        rw [← h]
        exact ha
      · simp [repoFindById, ha] at h
        exact ih h

theorem repoFindById_update (repo : List Report) (id : String) (r0 r : Report)
    (hfind : repoFindById repo id = some r0) (hid : r.id = id) :
    repoFindById (repoUpdate repo r) id = some r := by
  induction repo with
  | nil => simp [repoFindById] at hfind
  | cons a rest ih =>
      by_cases ha : a.id = id
      · have har : a.id = r.id := by rw [ha, hid]
        simp [repoUpdate, repoFindById, har, hid]
      · have hne : ¬(a.id = r.id) := by rw [hid]; exact ha
        have hfind2 : repoFindById rest id = some r0 := by
          simpa [repoFindById, ha] using hfind
        simpa [repoUpdate, repoFindById, hne, ha] using ih hfind2

theorem kpiApply_preserves (r : Report) (e : Bool)
    (k : Except String (List KPISuggestion)) (now : Nat) :
    (kpiApply r e k now).1.metadata.aiInsights = r.metadata.aiInsights
    ∧ (kpiApply r e k now).1.status = r.status
    ∧ (kpiApply r e k now).1.id = r.id := by
  unfold kpiApply
  cases e with
  | false => simp
  | true =>
      cases k with
      | error e => simp
      | ok kpis =>
          by_cases h : 0 < kpis.length
          · simp [h, Report.addKPISuggestions]
          · simp [h]

theorem foldl_addAIInsight (l : List AIInsight) (r : Report) :
    (l.foldl Report.addAIInsight r).metadata.aiInsights.getD []
        = r.metadata.aiInsights.getD [] ++ l
    ∧ (l.foldl Report.addAIInsight r).status = r.status
    ∧ (l.foldl Report.addAIInsight r).id = r.id := by
  induction l generalizing r with
  | nil => simp
  | cons i t ih =>
      simp only [List.foldl_cons]
      refine ⟨?_, ?_, ?_⟩
      · rw [(ih (r.addAIInsight i)).1]
        simp [Report.addAIInsight]
      · rw [(ih (r.addAIInsight i)).2.1]
        rfl
      · rw [(ih (r.addAIInsight i)).2.2]
        rfl

theorem orchR2_preserves (job : MLJobData) (report : Report) :
    (orchR2 job report).metadata.aiInsights = report.metadata.aiInsights
    ∧ (orchR2 job report).status = ReportStatus.ANALYZING
    ∧ (orchR2 job report).id = report.id :=
  ⟨rfl, rfl, rfl⟩

theorem orchKpiStep_preserves (job : MLJobData) (report : Report)
    (kpiResult : Except String (List KPISuggestion)) (now : Nat) :
    (orchKpiStep job report kpiResult now).1.metadata.aiInsights
        = report.metadata.aiInsights
    ∧ (orchKpiStep job report kpiResult now).1.status = ReportStatus.ANALYZING
    ∧ (orchKpiStep job report kpiResult now).1.id = report.id := by
  have hk := kpiApply_preserves (orchR2 job report) job.enableKPISuggestions
    kpiResult now
  exact ⟨hk.1, hk.2.1, hk.2.2⟩

theorem orchFinalReport_spec (job : MLJobData) (report : Report)
    (kpiResult : Except String (List KPISuggestion)) (now : Nat) :
    (orchFinalReport job report kpiResult now).metadata.aiInsights.getD []
        = report.metadata.aiInsights.getD []
          ++ orchInsights5 job report kpiResult now
    ∧ (orchFinalReport job report kpiResult now).status = ReportStatus.ANALYZING
    ∧ (orchFinalReport job report kpiResult now).id = report.id := by
  have hf := foldl_addAIInsight (orchInsights5 job report kpiResult now)
    (orchKpiStep job report kpiResult now).1
  have hk := orchKpiStep_preserves job report kpiResult now
  unfold orchFinalReport
  refine ⟨?_, ?_, ?_⟩
  · rw [hf.1, hk.1]
  · rw [hf.2.1, hk.2.1]
  · rw [hf.2.2, hk.2.2]

/-- C4 (amended): any uncaught failure of an analysis step (data quality,
anomaly detection, forecasting, correlation) is caught by the orchestrator:
the Report is still persisted with the mutations applied so far
(markAsAnalyzing, setDataQuality, stored KPI suggestions) and its status
stays ANALYZING, never FAILED — but the locally accumulated insight list is
NOT persisted: the stored report keeps exactly its original insights,
because the source only applies the local list to the report after the
correlation step. A failure of the external KPI call alone is swallowed and
the run completes, persisting all accumulated insights. -/
theorem c4_analysis_fault_containment (repo : List Report) (job : MLJobData)
    (fault : Option FaultStep) (kpiResult : Except String (List KPISuggestion))
    (now : Nat) (report : Report)
    (hfind : repoFindById repo job.reportId = some report) :
    (faultFires job fault = true →
      (processAnalysis repo job fault kpiResult now).failed = true
      ∧ ∃ r, repoFindById (processAnalysis repo job fault kpiResult now).repo
            job.reportId = some r
          ∧ r.metadata.aiInsights = report.metadata.aiInsights
          ∧ r.status = ReportStatus.ANALYZING)
    ∧ (fault = none →
      (processAnalysis repo job fault kpiResult now).failed = false
      ∧ ∃ r, repoFindById (processAnalysis repo job fault kpiResult now).repo
            job.reportId = some r
          ∧ r.metadata.aiInsights.getD []
              = report.metadata.aiInsights.getD []
                ++ (processAnalysis repo job fault kpiResult now).accumulated
          ∧ r.status = ReportStatus.ANALYZING) := by
  have hid0 : report.id = job.reportId := repoFindById_id _ _ _ hfind
  have hid1 : (report.markAsAnalyzing).id = job.reportId := hid0
  have hfind1 : repoFindById (repoUpdate repo report.markAsAnalyzing)
      job.reportId = some report.markAsAnalyzing :=
    repoFindById_update repo job.reportId report report.markAsAnalyzing hfind hid1
  constructor
  · intro hfire
    cases fault with
    | none => simp [faultFires] at hfire
    | some s =>
        cases s with
        | quality =>
            have hrun : processAnalysis repo job (some FaultStep.quality)
                kpiResult now
                = { repo := repoUpdate (repoUpdate repo report.markAsAnalyzing)
                      report.markAsAnalyzing,
                    accumulated := [], failed := true, found := true } := by
              unfold processAnalysis
              rw [hfind]
              simp
            rw [hrun]
            exact ⟨rfl, report.markAsAnalyzing,
              repoFindById_update _ job.reportId report.markAsAnalyzing
                report.markAsAnalyzing hfind1 hid1, rfl, rfl⟩
        | anomaly =>
            have hen : job.enableAnomalyDetection = true := by
              simpa [faultFires] using hfire
            have hrun : processAnalysis repo job (some FaultStep.anomaly)
                kpiResult now
                = { repo := repoUpdate (repoUpdate repo report.markAsAnalyzing)
                      (orchR2 job report),
                    accumulated := orchInsights1 job now,
                    failed := true, found := true } := by
              unfold processAnalysis
              rw [hfind]
              simp [hen]
            rw [hrun]
            have hp := orchR2_preserves job report
            refine ⟨rfl, orchR2 job report, ?_, hp.1, hp.2.1⟩
            exact repoFindById_update _ job.reportId report.markAsAnalyzing
              _ hfind1 (by rw [hp.2.2]; exact hid0)
        | forecasting =>
            have hen : job.enableForecasting = true := by
              simpa [faultFires] using hfire
            have hrun : processAnalysis repo job (some FaultStep.forecasting)
                kpiResult now
                = { repo := repoUpdate (repoUpdate repo report.markAsAnalyzing)
                      (orchR2 job report),
                    accumulated := orchInsights2 job now,
                    failed := true, found := true } := by
              unfold processAnalysis
              rw [hfind]
              simp [hen]
            rw [hrun]
            have hp := orchR2_preserves job report
            refine ⟨rfl, orchR2 job report, ?_, hp.1, hp.2.1⟩
            exact repoFindById_update _ job.reportId report.markAsAnalyzing
              _ hfind1 (by rw [hp.2.2]; exact hid0)
        | correlation =>
            have hrun : processAnalysis repo job (some FaultStep.correlation)
                kpiResult now
                = { repo := repoUpdate (repoUpdate repo report.markAsAnalyzing)
                      (orchKpiStep job report kpiResult now).1,
                    accumulated := orchInsights3 job now
                      ++ (orchKpiStep job report kpiResult now).2,
                    failed := true, found := true } := by
              unfold processAnalysis
              rw [hfind]
              simp
            rw [hrun]
            have hp := orchKpiStep_preserves job report kpiResult now
            refine ⟨rfl, (orchKpiStep job report kpiResult now).1, ?_,
              hp.1, hp.2.1⟩
            exact repoFindById_update _ job.reportId report.markAsAnalyzing
              _ hfind1 (by rw [hp.2.2]; exact hid0)
  · intro hnone
    subst hnone
    have hrun : processAnalysis repo job none kpiResult now
        = { repo := repoUpdate (repoUpdate repo report.markAsAnalyzing)
              (orchFinalReport job report kpiResult now),
            accumulated := orchInsights5 job report kpiResult now,
            failed := false, found := true } := by
      unfold processAnalysis
      rw [hfind]
      simp
    rw [hrun]
    have hp := orchFinalReport_spec job report kpiResult now
    refine ⟨rfl, orchFinalReport job report kpiResult now, ?_, hp.1, hp.2.1⟩
    exact repoFindById_update _ job.reportId report.markAsAnalyzing
      _ hfind1 (by rw [hp.2.2]; exact hid0)

/-- C4 witness: with the concrete stored report and the two-record job, an
injected correlation-step failure leaves the persisted report with its
original (absent) insight list and status ANALYZING. -/
theorem c4_analysis_fault_containment_witness :
    (processAnalysis [mlReport] mlJob (some FaultStep.correlation)
      (Except.ok []) 1234).failed = true
    ∧ ∃ r, repoFindById (processAnalysis [mlReport] mlJob
          (some FaultStep.correlation) (Except.ok []) 1234).repo
          mlJob.reportId = some r
        ∧ r.metadata.aiInsights = mlReport.metadata.aiInsights
        ∧ r.status = ReportStatus.ANALYZING := by
  have hfind0 : repoFindById [mlReport] mlJob.reportId = some mlReport := by
    simp [repoFindById, mlReport, mlJob]
  exact (c4_analysis_fault_containment [mlReport] mlJob
    (some FaultStep.correlation) (Except.ok []) 1234 mlReport hfind0).1 rfl

/-- C4 counterexample: the claim says every insight accumulated before the
failure is persisted; in the concrete run, the step-1 low-quality insight is
accumulated (completeness 50), a correlation-step fault follows, and the
persisted report carries no insight at all: the local list is lost. -/
theorem c4_counterexample :
    (processAnalysis [mlReport] mlJob (some FaultStep.correlation)
      (Except.ok []) 1234).accumulated ≠ []
    ∧ (repoFindById (processAnalysis [mlReport] mlJob
          (some FaultStep.correlation) (Except.ok []) 1234).repo
          mlJob.reportId).map (fun r => r.metadata.aiInsights)
      = some none := by
  have hfind0 : repoFindById [mlReport] mlJob.reportId = some mlReport := by
    simp [repoFindById, mlReport, mlJob]
  have hrun : processAnalysis [mlReport] mlJob (some FaultStep.correlation)
      (Except.ok []) 1234
      = { repo := repoUpdate (repoUpdate [mlReport] mlReport.markAsAnalyzing)
            (orchKpiStep mlJob mlReport (Except.ok []) 1234).1,
          accumulated := orchInsights3 mlJob 1234
            ++ (orchKpiStep mlJob mlReport (Except.ok []) 1234).2,
          failed := true, found := true } := by
    unfold processAnalysis
    rw [hfind0]
    simp
  have hdq : (dataQualityAnalyze mlJob.data none).completeness = 50 := by
    simp [dataQualityAnalyze, mlJob, effectiveFields, firstRowKeys,
      calculateCompleteness, isFilled, rowGet]
    norm_num
  have h50 : (dataQualityAnalyze mlJob.data none).completeness < 90 := by
    rw [hdq]
    norm_num
  have hp := orchKpiStep_preserves mlJob mlReport (Except.ok []) 1234
  constructor
  · rw [hrun]
    simp [orchInsights3, orchInsights2, orchInsights1, if_pos h50,
      orchKpiStep, kpiApply, mlJob]
    exact h50
  · rw [hrun]
    have hfindf := repoFindById_update
      (repoUpdate [mlReport] mlReport.markAsAnalyzing) mlJob.reportId
      mlReport.markAsAnalyzing (orchKpiStep mlJob mlReport (Except.ok []) 1234).1
      (repoFindById_update [mlReport] mlJob.reportId mlReport
        mlReport.markAsAnalyzing hfind0 rfl)
      (by rw [hp.2.2]; rfl)
    rw [hfindf]
    simp [hp.1]
    rfl

/-- C3 (amended): a render-enqueue failure does surface synchronously to the
caller, but the PENDING report does not disappear: the repository save runs
before the enqueue and nothing rolls it back, so the persisted state still
contains the new report with status PENDING. -/
theorem c3_enqueue_failure_keeps_pending (repo : List Report)
    (dto : GenerateReportDTO) (newId : String) (now : Nat) (e : String)
    (mlEnqueue : Except String Unit)
    (hrows : dto.data.length ≤ getMaxRows dto.format)
    (hvalid : validateReport (reportFromDTO dto newId now) = none) :
    (generateReportExecute repo dto newId now (Except.error e) mlEnqueue).1
      = Except.error e
    ∧ (generateReportExecute repo dto newId now (Except.error e) mlEnqueue).2
      = repo ++ [reportFromDTO dto newId now]
    ∧ (reportFromDTO dto newId now).status = ReportStatus.PENDING := by
  have hno : ¬(getMaxRows dto.format < dto.data.length) := by omega
  unfold generateReportExecute
  rw [if_neg hno]
  simp [hvalid]
  rfl

/-- C3 witness: the concrete valid one-row request with a failing render
queue returns the queue error while the PENDING report stays stored. -/
theorem c3_enqueue_failure_keeps_pending_witness :
    (generateReportExecute [] dtoC3 "r-9" 0 (Except.error "queue down")
      (Except.ok ())).1 = Except.error "queue down"
    ∧ (generateReportExecute [] dtoC3 "r-9" 0 (Except.error "queue down")
      (Except.ok ())).2 = [] ++ [reportFromDTO dtoC3 "r-9" 0]
    ∧ (reportFromDTO dtoC3 "r-9" 0).status = ReportStatus.PENDING :=
  c3_enqueue_failure_keeps_pending [] dtoC3 "r-9" 0 "queue down"
    (Except.ok ()) (by decide) (by decide)

/-- C3 counterexample: the claim says an enqueue failure leaves no PENDING
report persisted; in the concrete failing run the stored list nevertheless
holds exactly the new PENDING report. -/
theorem c3_counterexample :
    (generateReportExecute [] dtoC3 "r-9" 0 (Except.error "queue down")
      (Except.ok ())).2 = [reportFromDTO dtoC3 "r-9" 0]
    ∧ (reportFromDTO dtoC3 "r-9" 0).status = ReportStatus.PENDING
    ∧ (generateReportExecute [] dtoC3 "r-9" 0 (Except.error "queue down")
      (Except.ok ())).1 = Except.error "queue down" := by
  have hno : ¬(getMaxRows dtoC3.format < dtoC3.data.length) := by decide
  have hvalid : validateReport (reportFromDTO dtoC3 "r-9" 0) = none := by decide
  unfold generateReportExecute
  rw [if_neg hno]
  simp [hvalid]
  rfl

/-- C10: on the synchronous analysis path, when the report exists and AI
analysis is enabled and the ML service throws, the persisted report is
transitioned to FAILED with the error field wrapping the analysis message,
and the error is rethrown to the caller verbatim. -/
theorem c10_sync_analysis_failure_fatal (repo : List Report)
    (dto : AnalyzeDataDTO) (e : String) (now : Nat) (elapsed : Int)
    (report : Report) (hfind : repoFindById repo dto.reportId = some report)
    (hai : report.aiAnalysisEnabled = true) :
    (analyzeDataExecute repo dto (Except.error e) now elapsed).1
      = Except.error e
    ∧ ∃ r, repoFindById
          (analyzeDataExecute repo dto (Except.error e) now elapsed).2
          dto.reportId = some r
        ∧ r.status = ReportStatus.FAILED
        ∧ r.error = some ("Error en análisis de IA: " ++ e) := by
  have hid0 : report.id = dto.reportId := repoFindById_id _ _ _ hfind
  have hnot : ¬(report.aiAnalysisEnabled = false) := by simp [hai]
  have hrun : analyzeDataExecute repo dto (Except.error e) now elapsed
      = (Except.error e,
          repoUpdate (repoUpdate repo report.markAsAnalyzing)
            ((report.markAsAnalyzing).markAsFailed
              ("Error en análisis de IA: " ++ e) now)) := by
    unfold analyzeDataExecute
    rw [hfind]
    simp [hai]
  rw [hrun]
  have hfind1 : repoFindById (repoUpdate repo report.markAsAnalyzing)
      dto.reportId = some report.markAsAnalyzing :=
    repoFindById_update repo dto.reportId report report.markAsAnalyzing
      hfind hid0
  refine ⟨rfl, (report.markAsAnalyzing).markAsFailed
    ("Error en análisis de IA: " ++ e) now, ?_, rfl, rfl⟩
  exact repoFindById_update _ dto.reportId report.markAsAnalyzing _ hfind1 hid0

/-- C10 witness: the stored report with analysis enabled, a failing ML call
with message boom: the call rethrows boom and the stored report is FAILED
with the wrapped message. -/
theorem c10_sync_analysis_failure_fatal_witness :
    (analyzeDataExecute [mlReport] ⟨"r-ml", [], false, false, false⟩
      (Except.error "boom") 555 7).1 = Except.error "boom"
    ∧ ∃ r, repoFindById (analyzeDataExecute [mlReport]
          ⟨"r-ml", [], false, false, false⟩
          (Except.error "boom") 555 7).2 "r-ml" = some r
        ∧ r.status = ReportStatus.FAILED
        ∧ r.error = some ("Error en análisis de IA: " ++ "boom") :=
  c10_sync_analysis_failure_fatal [mlReport] ⟨"r-ml", [], false, false, false⟩
    "boom" 555 7 mlReport (by simp [repoFindById, mlReport]) rfl
